import Mathlib

/-!
Thermostat controller (`gpiointerrupt.c`).

A shallow embedding of the thermostat firmware: the global variables become one
record that every function takes and returns, the I2C bus and the button
interrupts are explicit inputs, and every `DISPLAY` call appends one message to
an output log.

C `int` values are `Int`; where the source can leave the range of its C type the
wrap is written out (`toInt16`, `ULONG_MOD`).
-/

namespace Thermostat

set_option linter.unusedVariables false

/-! ## Constants -/

/-- Tick period in milliseconds: `#define TIMER_PERIOD 100`. -/
def TIMER_PERIOD : Nat := 100

/-- Number of tasks: `#define NUM_TASKS 3`. -/
def NUM_TASKS : Nat := 3

/-- First enumerator of `enum BUTTON_STATES {INCREASE_TEMP, DECREASE_TEMP, BUTTON_WAIT}`. -/
def INCREASE_TEMP : Int := 0
/-- Second enumerator of `BUTTON_STATES`. -/
def DECREASE_TEMP : Int := 1
/-- Third enumerator of `BUTTON_STATES`. -/
def BUTTON_WAIT : Int := 2

/-- First enumerator of `enum HEAT_STATES {HEAT_ON, HEAT_OFF, HEAT_WAIT}`. -/
def HEAT_ON : Int := 0
/-- Second enumerator of `HEAT_STATES`. -/
def HEAT_OFF : Int := 1
/-- Third enumerator of `HEAT_STATES`. -/
def HEAT_WAIT : Int := 2

/-- First enumerator of `enum UART2_STATES {UART2_UPDATE, UART2_WAIT}`. -/
def UART2_UPDATE : Int := 0
/-- Second enumerator of `UART2_STATES`. -/
def UART2_WAIT : Int := 1

/-! ## Output log -/

/-- One `DISPLAY(...)` call: the format string it uses together with the
arguments it is given. -/
inductive Msg where
  /-- Format `"Initializing I2C Driver - "` -/
  | initializing
  /-- Format `"Failed\n\r"` -/
  | failed
  /-- Format `"Passed\n\r"` -/
  | passed
  /-- Format `"Is this %s? "` with `sensors[i].id` -/
  | isThis (id : String)
  /-- Format `"Found\n\r"` -/
  | found
  /-- Format `"No\n\r"` -/
  | no
  /-- Format `"Detected TMP%s I2C address: %x\n\r"` with the id and the target address -/
  | detected (id : String) (address : Nat)
  /-- Format `"Temperature sensor not found, contact professor\n\r"` -/
  | notFound
  /-- Format `"Error reading temperature sensor (%d)\n\r"` with the transaction status -/
  | readError (status : Int)
  /-- Format `"Please power cycle your board by unplugging USB and plugging back in.\n\r"` -/
  | powerCycle
  /-- Format `"<%02d, %02d, %d, %04d>\n\r"` with temperature, set-point, heat flag, seconds -/
  | status (temperature setPointTemp : Int) (heatOn : Bool) (seconds : Int)
  deriving DecidableEq, Repr

/-! ## Global state -/

/-- The global variables of `gpiointerrupt.c` that the thermostat logic reads or
writes, the LED pin, and the log of `DISPLAY` output. -/
structure World where
  /-- Global `int setPointTemp = 20;` -/
  setPointTemp : Int
  /-- Global `int16_t temperature = 0;` -/
  temperature : Int
  /-- Global `volatile bool heatOn = 0;` -/
  heatOn : Bool
  /-- Global `int seconds = 0;` -/
  seconds : Int
  /-- Global `volatile bool increaseTemp = 0;` -/
  increaseTemp : Bool
  /-- Global `volatile bool decreaseTemp = 0;` -/
  decreaseTemp : Bool
  /-- Global `BUTTON_STATE`, the variable declared with `enum BUTTON_STATES`. -/
  BUTTON_STATE : Int
  /-- Global `uint8_t txBuffer[1];` -/
  txBuffer0 : Nat
  /-- Global `uint8_t rxBuffer[2];`, first byte -/
  rxBuffer0 : Nat
  /-- Global `uint8_t rxBuffer[2];`, second byte -/
  rxBuffer1 : Nat
  /-- Field `i2cTransaction.targetAddress` -/
  targetAddress : Nat
  /-- Field `i2cTransaction.writeCount` -/
  writeCount : Nat
  /-- Field `i2cTransaction.readCount` -/
  readCount : Nat
  /-- Level last written to `CONFIG_GPIO_LED_0` (`true` is `CONFIG_GPIO_LED_ON`). -/
  led : Bool
  /-- Every I2C transfer attempted so far, oldest first:
  `(targetAddress, txBuffer[0], readCount)`. -/
  transfers : List (Nat × Nat × Nat)
  /-- Everything written through `DISPLAY`, oldest first. -/
  uart : List Msg
  deriving DecidableEq, Repr

/-- The globals as their initialisers leave them. -/
def World.init : World where
  setPointTemp := 20
  temperature := 0
  heatOn := false
  seconds := 0
  increaseTemp := false
  decreaseTemp := false
  BUTTON_STATE := 0
  txBuffer0 := 0
  rxBuffer0 := 0
  rxBuffer1 := 0
  targetAddress := 0
  writeCount := 0
  readCount := 0
  led := false
  transfers := []
  uart := []

/-- Macro `DISPLAY(fmt, ...)`: format into `output` and write it to the UART. -/
def DISPLAY (m : Msg) (w : World) : World :=
  { w with uart := w.uart ++ [m] }

/-! ## Callbacks -/

/-- Callback `gpioIncreaseTempCallback`: `increaseTemp = 1;`. -/
def gpioIncreaseTempCallback (w : World) : World :=
  { w with increaseTemp := true }

/-- Callback `gpioDecreaseTempCallback`: `decreaseTemp = 1;`. -/
def gpioDecreaseTempCallback (w : World) : World :=
  { w with decreaseTemp := true }

/-! ## Set-point task -/

/-- Task function `changeSetPointTemp`. The argument `state` is overwritten from the two
request flags before it is read; the `switch` then adjusts the set-point.
`setPointTemp += 1` runs only below 40 and `setPointTemp -= 1` only above 10, so
neither leaves the range of `int`. -/
def changeSetPointTemp (state : Int) (w : World) : Int × World :=
  let state : Int :=
    if w.increaseTemp then INCREASE_TEMP
    else if w.decreaseTemp then DECREASE_TEMP
    else BUTTON_WAIT
  let r : Int × World :=
    if state = INCREASE_TEMP then
      let w1 : World :=
        if w.setPointTemp < 40 then
          { w with setPointTemp := w.setPointTemp + 1, increaseTemp := false }
        else w
      (BUTTON_WAIT, w1)
    else if state = DECREASE_TEMP then
      let w1 : World :=
        if w.setPointTemp > 10 then
          { w with setPointTemp := w.setPointTemp - 1, decreaseTemp := false }
        else w
      (BUTTON_WAIT, w1)
    else
      (BUTTON_WAIT, w)
  (r.1, { r.2 with BUTTON_STATE := r.1 })

/-! ## Temperature sensor -/

/-- Conversion of an `int` to `int16_t`: reduction modulo 2^16 into
[-32768, 32767]. -/
def toInt16 (x : Int) : Int := (x + 32768) % 65536 - 32768

/-- Conversion of a wide value to `int`: reduction modulo 2^32 into
[-2^31, 2^31 - 1]. -/
def toInt32 (x : Int) : Int := (x + 2147483648) % 4294967296 - 2147483648

/-- The 32-bit two's-complement bit pattern of an `int`. -/
def bits32 (x : Int) : Nat := (x % 4294967296).toNat

/-- The C operator `a | b` on two `int` operands, computed on their 32-bit
two's-complement bit patterns. -/
def intOr (a b : Int) : Int := toInt32 ((bits32 a ||| bits32 b : Nat) : Int)

/-- What one call of `I2C_transfer` does: it succeeds and delivers two bytes
into `rxBuffer`, or it fails and leaves a status code in
`i2cTransaction.status`. -/
inductive I2CResult where
  /-- The transfer returned `true`; `b0` and `b1` are the bytes received. -/
  | ok (b0 b1 : Nat)
  /-- The transfer returned `false`. -/
  | fail (status : Int)
  deriving DecidableEq, Repr

/-- Function `readTemp`, given the outcome `xfer` of its `I2C_transfer` call.
Returns the value of `temperature` together with the new globals.

`temperature *= 0.0078125` converts the `int16_t` to `double`, multiplies by
2^-7 (exact for every 16-bit operand) and converts back by truncation toward
zero, which is `Int.tdiv _ 128`. -/
def readTemp (xfer : I2CResult) (w : World) : Int × World :=
  let w : World := { w with readCount := 2 }
  let w : World :=
    { w with transfers := w.transfers ++ [(w.targetAddress, w.txBuffer0, w.readCount)] }
  match xfer with
  | .ok b0 b1 =>
    let w : World := { w with rxBuffer0 := b0 % 256, rxBuffer1 := b1 % 256 }
    let w : World :=
      { w with temperature := toInt16 (((w.rxBuffer0 <<< 8) ||| w.rxBuffer1 : Nat) : Int) }
    let w : World := { w with temperature := toInt16 (Int.tdiv w.temperature 128) }
    let w : World :=
      if w.rxBuffer0 &&& 0x80 ≠ 0 then
        { w with temperature := toInt16 (intOr w.temperature 0xF000) }
      else w
    (w.temperature, w)
  | .fail status =>
    let w : World := DISPLAY (.readError status) w
    let w : World := DISPLAY .powerCycle w
    (w.temperature, w)

/-! ## Heat-control task -/

/-- Task function `adjustHeat`, given the outcome `xfer` of the sensor transfer
made by its call of `readTemp`. -/
def adjustHeat (xfer : I2CResult) (state : Int) (w : World) : Int × World :=
  let r : Int × World := readTemp xfer w
  let w : World := { r.2 with temperature := r.1 }
  let w : World :=
    if w.temperature ≥ w.setPointTemp then
      { w with heatOn := false, led := false }
    else
      { w with heatOn := true, led := true }
  let state : Int := HEAT_WAIT
  (state, w)

/-! ## Status task -/

/-- Task function `UART2Output`: one status line, state returned as given. -/
def UART2Output (state : Int) (w : World) : Int × World :=
  (state, DISPLAY (.status w.temperature w.setPointTemp w.heatOn w.seconds) w)

/-! ## Sensor identification -/

/-- One entry of the `sensors` table. -/
structure Sensor where
  /-- Field `uint8_t address` -/
  address : Nat
  /-- Field `uint8_t resultReg` -/
  resultReg : Nat
  /-- Field `char *id` -/
  id : String
  deriving DecidableEq, Repr

/-- The table `sensors[3]`. -/
def sensors : List Sensor :=
  [ { address := 0x48, resultReg := 0x0000, id := "11X" },
    { address := 0x49, resultReg := 0x0000, id := "116" },
    { address := 0x41, resultReg := 0x0001, id := "006" } ]

/-- How a start-up routine ends: it returns, it stays in a `while (1);` loop
for ever, or it reads `sensors` outside its three entries. -/
inductive Outcome (α : Type) where
  /-- The routine returned `a`. -/
  | ok (a : α)
  /-- The routine entered `while (1);` with the globals as given. -/
  | halt (w : World)
  /-- The routine indexed `sensors` out of bounds. -/
  | fault
  deriving Repr

/-- A probe: `I2C_transfer` with `readCount == 0`. It is recorded in
`transfers` and its result is what the bus answers for the target address and
the register in `txBuffer[0]`. -/
def probeTransfer (probe : Nat → Nat → Bool) (w : World) : Bool × World :=
  (probe w.targetAddress w.txBuffer0,
   { w with transfers := w.transfers ++ [(w.targetAddress, w.txBuffer0, w.readCount)] })

/-- The loop `for (i=0; i<3; ++i) { ... }` of `initI2C`, entered with loop
variable `i`. Returns `found`, the final `i` and the globals. -/
def probeLoop (probe : Nat → Nat → Bool) (i : Nat) (w : World) :
    Outcome (Bool × Nat × World) :=
  if i < 3 then
    match sensors[i]? with
    | none => .fault
    | some s =>
      let w : World := { w with targetAddress := s.address }
      let w : World := { w with txBuffer0 := s.resultReg }
      let w : World := DISPLAY (.isThis s.id) w
      let r : Bool × World := probeTransfer probe w
      if r.1 then
        let w : World := DISPLAY .found r.2
        .ok (true, i, w)
      else
        let w : World := DISPLAY .no r.2
        probeLoop probe (i + 1) w
  else
    .ok (false, i, w)
termination_by 3 - i

/-- Function `initI2C`. `opened` tells whether `I2C_open` returned a handle;
`probe address register` is the result of a probe transfer. -/
def initI2C (opened : Bool) (probe : Nat → Nat → Bool) (w : World) : Outcome World :=
  let w : World := DISPLAY .initializing w
  if !opened then
    let w : World := DISPLAY .failed w
    .halt w
  else
    let w : World := DISPLAY .passed w
    let w : World := { w with writeCount := 1 }
    let w : World := { w with readCount := 0 }
    match probeLoop probe 0 w with
    | .fault => .fault
    | .halt w => .halt w
    | .ok (found, i, w) =>
      if found then
        match sensors[i]? with
        | none => .fault
        | some s => .ok (DISPLAY (.detected s.id w.targetAddress) w)
      else
        .ok (DISPLAY .notFound w)

/-! ## Scheduler -/

/-- Modulus of `unsigned long` arithmetic on the 32-bit target. -/
def ULONG_MOD : Nat := 4294967296

/-- The `task` struct; `σ` is the type of the global state that the tick
function reads and writes. -/
structure task (σ : Type) where
  /-- Field `int state` -/
  state : Int
  /-- Field `unsigned long period` -/
  period : Nat
  /-- Field `unsigned long elapsedTime` -/
  elapsedTime : Nat
  /-- Field `int (*TickFct)(int)` -/
  TickFct : Int → σ → Int × σ

/-- Body of the scheduler `for` loop for one task. The third component is the
state the tick function was called with, or `none` when it was not called. -/
def runTask {σ : Type} (t : task σ) (w : σ) : task σ × σ × Option Int :=
  let r : task σ × σ × Option Int :=
    if t.elapsedTime ≥ t.period then
      let q : Int × σ := t.TickFct t.state w
      ({ t with state := q.1, elapsedTime := 0 }, q.2, some t.state)
    else
      (t, w, none)
  ({ r.1 with elapsedTime := (r.1.elapsedTime + TIMER_PERIOD) % ULONG_MOD }, r.2.1, r.2.2)

/-- The scheduler loop `for (i = 0; i < NUM_TASKS; ++i) { ... }` over the tasks
from index `i` on. The third component lists, in call order, the index of every
task whose tick function was called and the state it was called with. -/
def forLoop {σ : Type} : Nat → List (task σ) → σ → List (task σ) × σ × List (Nat × Int)
  | _, [], w => ([], w, [])
  | i, t :: ts, w =>
    let r : task σ × σ × Option Int := runTask t w
    let rest : List (task σ) × σ × List (Nat × Int) := forLoop (i + 1) ts r.2.1
    (r.1 :: rest.1, rest.2.1,
      (match r.2.2 with
        | some s => [(i, s)]
        | none => []) ++ rest.2.2)

/-- The tasks and the globals at the start of pass `n` of `while (1) { ... }`.
`wait k` is what happens to the globals between the `for` loop of pass `k` and
the next pass. -/
def atPass {σ : Type} (wait : Nat → σ → σ) (ts : List (task σ)) (w : σ) :
    Nat → List (task σ) × σ
  | 0 => (ts, w)
  | n + 1 =>
    let p : List (task σ) × σ := atPass wait ts w n
    let r : List (task σ) × σ × List (Nat × Int) := forLoop 0 p.1 p.2
    (r.1, wait n r.2.1)

/-- The calls made in pass `n`: task index and input state, in call order. -/
def passCalls {σ : Type} (wait : Nat → σ → σ) (ts : List (task σ)) (w : σ) (n : Nat) :
    List (Nat × Int) :=
  let p : List (task σ) × σ := atPass wait ts w n
  (forLoop 0 p.1 p.2).2.2

/-- Whether the tick function of task `i` is called in pass `n`. -/
def fires {σ : Type} (wait : Nat → σ → σ) (ts : List (task σ)) (w : σ) (n i : Nat) : Bool :=
  (passCalls wait ts w n).any (fun c => c.1 == i)

/-- What the environment supplies while the firmware runs. -/
structure Env where
  /-- Outcome of the sensor transfer when `k` transfers have been made before. -/
  read : Nat → I2CResult
  /-- Whether the increase button has a falling edge during the wait of pass `n`. -/
  incEdge : Nat → Bool
  /-- Whether the decrease button has a falling edge during the wait of pass `n`. -/
  decEdge : Nat → Bool

/-- The end of pass `n`: `while (!TimerFlag){}` during which the button
interrupts may run, `TimerFlag = 0;` and `++seconds;`. -/
def waitTick (env : Env) (n : Nat) (w : World) : World :=
  let w : World := if env.incEdge n then gpioIncreaseTempCallback w else w
  let w : World := if env.decEdge n then gpioDecreaseTempCallback w else w
  { w with seconds := toInt32 (w.seconds + 1) }

/-- The array `tasks` as `mainThread` initialises it. -/
def mainTasks (env : Env) : List (task World) :=
  [ { state := BUTTON_WAIT, period := 200, elapsedTime := 200,
      TickFct := changeSetPointTemp },
    { state := HEAT_WAIT, period := 500, elapsedTime := 500,
      TickFct := fun state w => adjustHeat (env.read w.transfers.length) state w },
    { state := UART2_WAIT, period := 1000, elapsedTime := 1000,
      TickFct := UART2Output } ]

/-! ## Runs of the set-point logic -/

/-- One step of a run of the set-point logic: a falling edge on one of the two
buttons, or a call of `changeSetPointTemp` with some argument. -/
inductive Step where
  /-- The increase button fires `gpioIncreaseTempCallback`. -/
  | incEdge
  /-- The decrease button fires `gpioDecreaseTempCallback`. -/
  | decEdge
  /-- The scheduler calls `changeSetPointTemp state`. -/
  | change (state : Int)
  deriving DecidableEq, Repr

/-- Effect of one step on the globals. -/
def Step.apply : Step → World → World
  | .incEdge, w => gpioIncreaseTempCallback w
  | .decEdge, w => gpioDecreaseTempCallback w
  | .change state, w => (changeSetPointTemp state w).2

/-- Effect of a sequence of steps, first step first. -/
def runSteps : List Step → World → World
  | [], w => w
  | s :: ss, w => runSteps ss (s.apply w)

/-- The globals after `n` consecutive calls of `changeSetPointTemp`, each called
with the state the previous call returned. -/
def changeTimes : Nat → Int → World → Int × World
  | 0, state, w => (state, w)
  | n + 1, state, w =>
    let r : Int × World := changeSetPointTemp state w
    changeTimes n r.1 r.2

/-- The initial globals with the set-point and the two request flags replaced. -/
def worldWith (setPoint : Int) (inc dec : Bool) : World :=
  { World.init with setPointTemp := setPoint, increaseTemp := inc, decreaseTemp := dec }

/-- The value of `elapsedTime` that one pass of the scheduler loop leaves in a
task with the given period whose `elapsedTime` was `e` before the pass. -/
def nextElapsed (period e : Nat) : Nat :=
  ((if e ≥ period then 0 else e) + TIMER_PERIOD) % ULONG_MOD

/-- The value of `elapsedTime` at the start of pass `n` for a task with the
given period that started with `elapsedTime = e`. -/
def elapsedAt (period e : Nat) : Nat → Nat
  | 0 => e
  | n + 1 => nextElapsed period (elapsedAt period e n)

/-- Whether a task is due at the start of pass `n`, from its own period and its
own initial `elapsedTime` alone; `none` stands for an index past the task
list. -/
def dueAt (t : Option (Nat × Nat)) (n : Nat) : Bool :=
  match t with
  | some (period, e) => decide (elapsedAt period e n ≥ period)
  | none => false

/-- Period and `elapsedTime` of a task. -/
def task.timing {σ : Type} (t : task σ) : Nat × Nat := (t.period, t.elapsedTime)

/-- The increase button pressed `n` times, each press followed by one call of
`changeSetPointTemp`. -/
def incPresses : Nat → List Step
  | 0 => []
  | n + 1 => .incEdge :: .change BUTTON_WAIT :: incPresses n

/-! ## Start-up and main loop -/

/-- What the drivers answer during start-up. -/
structure Boot where
  /-- Whether `UART2_open` returns a handle. -/
  uartOpened : Bool
  /-- Whether `I2C_open` returns a handle. -/
  i2cOpened : Bool
  /-- Result of a probe transfer to the given address and register. -/
  probe : Nat → Nat → Bool
  /-- Whether `Timer_open` returns a handle. -/
  timerOpened : Bool
  /-- Whether `Timer_start` returns something other than `Timer_STATUS_ERROR`. -/
  timerStarted : Bool

/-- Function `initUART2`: `while (1);` when `UART2_open` fails. -/
def initUART2 (opened : Bool) (w : World) : Outcome World :=
  if !opened then .halt w else .ok w

/-- Function `initGPIO`: the LED is written off; the two button callbacks are
installed, which is what lets the edges of `Env` reach the globals. -/
def initGPIO (w : World) : World :=
  { w with led := false }

/-- Function `initTimer`: `while (1) {}` when `Timer_open` or `Timer_start`
fails. -/
def initTimer (opened started : Bool) (w : World) : Outcome World :=
  if !opened then .halt w
  else if !started then .halt w
  else .ok w

/-- The four driver init calls of `mainThread`, in order. -/
def startUp (boot : Boot) (w : World) : Outcome World :=
  match initUART2 boot.uartOpened w with
  | .fault => .fault
  | .halt w => .halt w
  | .ok w =>
    match initI2C boot.i2cOpened boot.probe w with
    | .fault => .fault
    | .halt w => .halt w
    | .ok w =>
      let w : World := initGPIO w
      initTimer boot.timerOpened boot.timerStarted w

/-- Function `mainThread`, observed at the start of pass `n` of its
`while (1)` loop: the task array and the globals there, or `halt` when an init
call never returns. -/
def mainThread (boot : Boot) (env : Env) (n : Nat) : Outcome (List (task World) × World) :=
  match startUp boot World.init with
  | .fault => .fault
  | .halt w => .halt w
  | .ok w => .ok (atPass (waitTick env) (mainTasks env) w n)

/-- The `seconds` argument of every status line in a `DISPLAY` log, oldest
first. -/
def statusSeconds : List Msg → List Int
  | [] => []
  | .status _ _ _ seconds :: ms => seconds :: statusSeconds ms
  | _ :: ms => statusSeconds ms

/-! ## The scheduler as the specification words it -/

/-- Per-tick rule of the specification for one task: add the tick period to the
elapsed-time counter; then, if the counter has reached the period, call the
transition function with the current state, store what it returns and reset the
counter to zero. The third component is as in `runTask`. -/
def specRunTask {σ : Type} (t : task σ) (w : σ) : task σ × σ × Option Int :=
  let t1 : task σ := { t with elapsedTime := t.elapsedTime + TIMER_PERIOD }
  if t1.elapsedTime ≥ t1.period then
    let q : Int × σ := t1.TickFct t1.state w
    ({ t1 with state := q.1, elapsedTime := 0 }, q.2, some t1.state)
  else
    (t1, w, none)

/-- Per-tick rule of the specification over the task list, in list order; the
components are as in `forLoop`. -/
def specForLoop {σ : Type} : Nat → List (task σ) → σ → List (task σ) × σ × List (Nat × Int)
  | _, [], w => ([], w, [])
  | i, t :: ts, w =>
    let r : task σ × σ × Option Int := specRunTask t w
    let rest : List (task σ) × σ × List (Nat × Int) := specForLoop (i + 1) ts r.2.1
    (r.1 :: rest.1, rest.2.1,
      (match r.2.2 with
        | some s => [(i, s)]
        | none => []) ++ rest.2.2)

/-- The tasks and the globals before pass `n` under the per-tick rule of the
specification; `wait` is as in `atPass`. -/
def specAtPass {σ : Type} (wait : Nat → σ → σ) (ts : List (task σ)) (w : σ) :
    Nat → List (task σ) × σ
  | 0 => (ts, w)
  | n + 1 =>
    let p : List (task σ) × σ := specAtPass wait ts w n
    let r : List (task σ) × σ × List (Nat × Int) := specForLoop 0 p.1 p.2
    (r.1, wait n r.2.1)

/-- The calls made in pass `n` under the per-tick rule of the specification. -/
def specPassCalls {σ : Type} (wait : Nat → σ → σ) (ts : List (task σ)) (w : σ) (n : Nat) :
    List (Nat × Int) :=
  let p : List (task σ) × σ := specAtPass wait ts w n
  (specForLoop 0 p.1 p.2).2.2

/-- A start-up in which every driver opens and no sensor answers a probe. -/
def noSensorBoot : Boot where
  uartOpened := true
  i2cOpened := true
  probe := fun _ _ => false
  timerOpened := true
  timerStarted := true

/-- An environment in which every sensor transfer fails with status -1 and no
button is pressed. -/
def quietEnv : Env where
  read := fun _ => .fail (-1)
  incEdge := fun _ => false
  decEdge := fun _ => false

/-- How a task under the rule of the code relates to the same task under the
rule of the specification at the start of a pass: state, period and tick
function agree, the period is a multiple of the tick period, and either both
counters still hold the period (before the first pass) or the counter of the
code is one tick period ahead. -/
def tickAhead {σ : Type} (c s : task σ) : Prop :=
  c.state = s.state ∧ c.period = s.period ∧ c.TickFct = s.TickFct ∧
    c.period % TIMER_PERIOD = 0 ∧ TIMER_PERIOD ≤ c.period ∧
    c.period + TIMER_PERIOD < ULONG_MOD ∧ c.elapsedTime % TIMER_PERIOD = 0 ∧
    ((c.elapsedTime = c.period ∧ s.elapsedTime = c.period) ∨
      (c.elapsedTime = s.elapsedTime + TIMER_PERIOD ∧ c.elapsedTime ≤ c.period))

/-- A set-point task that is not due under either rule. -/
def idleTask : task World where
  state := BUTTON_WAIT
  period := 200
  elapsedTime := 0
  TickFct := changeSetPointTemp

/-! # Proofs -/

/-! ## Set-point task -/

theorem changeSetPointTemp_range (state : Int) (w : World)
    (h : 10 ≤ w.setPointTemp ∧ w.setPointTemp ≤ 40) :
    10 ≤ (changeSetPointTemp state w).2.setPointTemp ∧
      (changeSetPointTemp state w).2.setPointTemp ≤ 40 := by
  obtain ⟨h1, h2⟩ := h
  unfold changeSetPointTemp
  simp only [INCREASE_TEMP, DECREASE_TEMP, BUTTON_WAIT]
  split_ifs <;> simp_all <;> omega

theorem Step.apply_range (s : Step) (w : World)
    (h : 10 ≤ w.setPointTemp ∧ w.setPointTemp ≤ 40) :
    10 ≤ (s.apply w).setPointTemp ∧ (s.apply w).setPointTemp ≤ 40 := by
  cases s with
  | incEdge => exact h
  | decEdge => exact h
  | change state => exact changeSetPointTemp_range state w h

/-- C1. Starting from a set-point in [10, 40], after any finite sequence of
button edges and calls of `changeSetPointTemp` (with any argument) the set-point
is still in [10, 40]; the initial set-point 20 is in that range. -/
theorem setPoint_range_invariant (steps : List Step) (w : World)
    (h : 10 ≤ w.setPointTemp ∧ w.setPointTemp ≤ 40) :
    (10 ≤ (runSteps steps w).setPointTemp ∧ (runSteps steps w).setPointTemp ≤ 40) ∧
      (10 ≤ World.init.setPointTemp ∧ World.init.setPointTemp ≤ 40) := by
  refine ⟨?_, by decide⟩
  induction steps generalizing w with
  | nil => exact h
  | cons s ss ih => exact ih (s.apply w) (Step.apply_range s w h)

theorem setPoint_range_invariant_witness :
    (10 ≤ World.init.setPointTemp ∧ World.init.setPointTemp ≤ 40) ∧
    ((10 ≤ (runSteps [.incEdge, .change 2, .decEdge, .decEdge, .change 0]
        World.init).setPointTemp ∧
      (runSteps [.incEdge, .change 2, .decEdge, .decEdge, .change 0]
        World.init).setPointTemp ≤ 40) ∧
      (10 ≤ World.init.setPointTemp ∧ World.init.setPointTemp ≤ 40)) :=
  ⟨by decide,
   setPoint_range_invariant [.incEdge, .change 2, .decEdge, .decEdge, .change 0]
     World.init (by decide)⟩

theorem changeSetPointTemp_inc_below (state : Int) (w : World)
    (hi : w.increaseTemp = true) (hs : w.setPointTemp < 40) :
    changeSetPointTemp state w =
      (BUTTON_WAIT, { w with setPointTemp := w.setPointTemp + 1, increaseTemp := false,
                             BUTTON_STATE := BUTTON_WAIT }) := by
  simp [changeSetPointTemp, hi, hs, INCREASE_TEMP]

theorem changeSetPointTemp_inc_at_limit (state : Int) (w : World)
    (hi : w.increaseTemp = true) (hs : ¬ w.setPointTemp < 40) :
    changeSetPointTemp state w = (BUTTON_WAIT, { w with BUTTON_STATE := BUTTON_WAIT }) := by
  simp [changeSetPointTemp, hi, hs, INCREASE_TEMP]

theorem changeSetPointTemp_dec_above (state : Int) (w : World)
    (hi : w.increaseTemp = false) (hd : w.decreaseTemp = true) (hs : w.setPointTemp > 10) :
    changeSetPointTemp state w =
      (BUTTON_WAIT, { w with setPointTemp := w.setPointTemp - 1, decreaseTemp := false,
                             BUTTON_STATE := BUTTON_WAIT }) := by
  simp [changeSetPointTemp, hi, hd, hs, INCREASE_TEMP, DECREASE_TEMP]

theorem changeSetPointTemp_dec_at_limit (state : Int) (w : World)
    (hi : w.increaseTemp = false) (hd : w.decreaseTemp = true) (hs : ¬ w.setPointTemp > 10) :
    changeSetPointTemp state w = (BUTTON_WAIT, { w with BUTTON_STATE := BUTTON_WAIT }) := by
  simp [changeSetPointTemp, hi, hd, hs, INCREASE_TEMP, DECREASE_TEMP]

theorem changeSetPointTemp_idle (state : Int) (w : World)
    (hi : w.increaseTemp = false) (hd : w.decreaseTemp = false) :
    changeSetPointTemp state w = (BUTTON_WAIT, { w with BUTTON_STATE := BUTTON_WAIT }) := by
  simp [changeSetPointTemp, hi, hd, INCREASE_TEMP, DECREASE_TEMP, BUTTON_WAIT]

/-- C2. For every argument, every set-point s in [10, 40] and every pair of
flags, `changeSetPointTemp` follows the transition rule: increase flag set and
s < 40 gives s + 1 with the increase flag cleared and the decrease flag kept;
increase flag set and s = 40 keeps the set-point and both flags; otherwise
decrease flag set and s > 10 gives s - 1 with the decrease flag cleared;
otherwise decrease flag set and s = 10 keeps the set-point and both flags. A
flag that the call clears belongs to a call that changed the set-point. -/
theorem changeSetPointTemp_transition (state : Int) (w : World)
    (h : 10 ≤ w.setPointTemp ∧ w.setPointTemp ≤ 40) :
    (w.increaseTemp = true → w.setPointTemp < 40 →
        (changeSetPointTemp state w).2.setPointTemp = w.setPointTemp + 1 ∧
        (changeSetPointTemp state w).2.increaseTemp = false ∧
        (changeSetPointTemp state w).2.decreaseTemp = w.decreaseTemp) ∧
    (w.increaseTemp = true → w.setPointTemp = 40 →
        (changeSetPointTemp state w).2.setPointTemp = 40 ∧
        (changeSetPointTemp state w).2.increaseTemp = true ∧
        (changeSetPointTemp state w).2.decreaseTemp = w.decreaseTemp) ∧
    (w.increaseTemp = false → w.decreaseTemp = true → w.setPointTemp > 10 →
        (changeSetPointTemp state w).2.setPointTemp = w.setPointTemp - 1 ∧
        (changeSetPointTemp state w).2.decreaseTemp = false ∧
        (changeSetPointTemp state w).2.increaseTemp = false) ∧
    (w.increaseTemp = false → w.decreaseTemp = true → w.setPointTemp = 10 →
        (changeSetPointTemp state w).2.setPointTemp = 10 ∧
        (changeSetPointTemp state w).2.decreaseTemp = true ∧
        (changeSetPointTemp state w).2.increaseTemp = false) ∧
    (w.increaseTemp = true → (changeSetPointTemp state w).2.increaseTemp = false →
        (changeSetPointTemp state w).2.setPointTemp ≠ w.setPointTemp) ∧
    (w.decreaseTemp = true → (changeSetPointTemp state w).2.decreaseTemp = false →
        (changeSetPointTemp state w).2.setPointTemp ≠ w.setPointTemp) := by
  obtain ⟨h1, h2⟩ := h
  refine ⟨?_, ?_, ?_, ?_, ?_, ?_⟩
  · intro hi hs
    rw [changeSetPointTemp_inc_below state w hi hs]
    exact ⟨rfl, rfl, rfl⟩
  · intro hi hs
    rw [changeSetPointTemp_inc_at_limit state w hi (by omega)]
    exact ⟨hs, hi, rfl⟩
  · intro hi hd hs
    rw [changeSetPointTemp_dec_above state w hi hd hs]
    exact ⟨rfl, rfl, hi⟩
  · intro hi hd hs
    rw [changeSetPointTemp_dec_at_limit state w hi hd (by omega)]
    exact ⟨hs, hd, hi⟩
  · intro hi
    by_cases hs : w.setPointTemp < 40
    · rw [changeSetPointTemp_inc_below state w hi hs]
      intro _
      show w.setPointTemp + 1 ≠ w.setPointTemp
      omega
    · rw [changeSetPointTemp_inc_at_limit state w hi hs]
      intro hc
      exact absurd (hi.symm.trans hc) (by decide)
  · intro hd
    cases hi : w.increaseTemp with
    | true =>
      by_cases hs : w.setPointTemp < 40
      · rw [changeSetPointTemp_inc_below state w hi hs]
        intro hc
        exact absurd (hd.symm.trans hc) (by decide)
      · rw [changeSetPointTemp_inc_at_limit state w hi hs]
        intro hc
        exact absurd (hd.symm.trans hc) (by decide)
    | false =>
      by_cases hs : w.setPointTemp > 10
      · rw [changeSetPointTemp_dec_above state w hi hd hs]
        intro _
        show w.setPointTemp - 1 ≠ w.setPointTemp
        omega
      · rw [changeSetPointTemp_dec_at_limit state w hi hd hs]
        intro hc
        exact absurd (hd.symm.trans hc) (by decide)

theorem changeSetPointTemp_transition_witness :
    ((10 ≤ (worldWith 20 true true).setPointTemp ∧ (worldWith 20 true true).setPointTemp ≤ 40) ∧
      (changeSetPointTemp 0 (worldWith 20 true true)).2.setPointTemp = 20 + 1 ∧
      (changeSetPointTemp 0 (worldWith 20 true true)).2.increaseTemp = false ∧
      (changeSetPointTemp 0 (worldWith 20 true true)).2.decreaseTemp = true) ∧
    ((10 ≤ (worldWith 40 true false).setPointTemp ∧
        (worldWith 40 true false).setPointTemp ≤ 40) ∧
      (changeSetPointTemp 2 (worldWith 40 true false)).2.setPointTemp = 40 ∧
      (changeSetPointTemp 2 (worldWith 40 true false)).2.increaseTemp = true ∧
      (changeSetPointTemp 2 (worldWith 40 true false)).2.decreaseTemp = false) ∧
    ((10 ≤ (worldWith 20 false true).setPointTemp ∧
        (worldWith 20 false true).setPointTemp ≤ 40) ∧
      (changeSetPointTemp 2 (worldWith 20 false true)).2.setPointTemp = 20 - 1 ∧
      (changeSetPointTemp 2 (worldWith 20 false true)).2.decreaseTemp = false ∧
      (changeSetPointTemp 2 (worldWith 20 false true)).2.increaseTemp = false) ∧
    ((10 ≤ (worldWith 10 false true).setPointTemp ∧
        (worldWith 10 false true).setPointTemp ≤ 40) ∧
      (changeSetPointTemp 2 (worldWith 10 false true)).2.setPointTemp = 10 ∧
      (changeSetPointTemp 2 (worldWith 10 false true)).2.decreaseTemp = true ∧
      (changeSetPointTemp 2 (worldWith 10 false true)).2.increaseTemp = false) :=
  ⟨⟨by decide,
      (changeSetPointTemp_transition 0 (worldWith 20 true true) (by decide)).1 rfl (by decide)⟩,
   ⟨by decide,
      (changeSetPointTemp_transition 2 (worldWith 40 true false) (by decide)).2.1 rfl rfl⟩,
   ⟨by decide,
      (changeSetPointTemp_transition 2 (worldWith 20 false true) (by decide)).2.2.1
        rfl rfl (by decide)⟩,
   ⟨by decide,
      (changeSetPointTemp_transition 2 (worldWith 10 false true) (by decide)).2.2.2.1
        rfl rfl rfl⟩⟩

/-- C3. With both request flags clear `changeSetPointTemp` keeps the set-point
and both flags and returns `BUTTON_WAIT`, whatever its argument and the
set-point are; and it returns `BUTTON_WAIT` for every argument and every
combination of flags. -/
theorem changeSetPointTemp_idle_and_return (state : Int) (w : World) :
    (w.increaseTemp = false → w.decreaseTemp = false →
        (changeSetPointTemp state w).2.setPointTemp = w.setPointTemp ∧
        (changeSetPointTemp state w).2.increaseTemp = false ∧
        (changeSetPointTemp state w).2.decreaseTemp = false ∧
        (changeSetPointTemp state w).1 = BUTTON_WAIT) ∧
    (changeSetPointTemp state w).1 = BUTTON_WAIT := by
  constructor
  · intro hi hd
    rw [changeSetPointTemp_idle state w hi hd]
    exact ⟨rfl, hi, hd, rfl⟩
  · unfold changeSetPointTemp
    simp only [INCREASE_TEMP, DECREASE_TEMP, BUTTON_WAIT]
    split_ifs <;> rfl

theorem changeSetPointTemp_idle_and_return_witness :
    ((changeSetPointTemp 0 (worldWith 33 false false)).2.setPointTemp =
        (worldWith 33 false false).setPointTemp ∧
      (changeSetPointTemp 0 (worldWith 33 false false)).2.increaseTemp = false ∧
      (changeSetPointTemp 0 (worldWith 33 false false)).2.decreaseTemp = false ∧
      (changeSetPointTemp 0 (worldWith 33 false false)).1 = BUTTON_WAIT) ∧
    (changeSetPointTemp 0 (worldWith 33 false false)).1 = BUTTON_WAIT :=
  ⟨(changeSetPointTemp_idle_and_return 0 (worldWith 33 false false)).1 rfl rfl,
   (changeSetPointTemp_idle_and_return 0 (worldWith 33 false false)).2⟩

theorem changeTimes_stuck (n : Nat) (state : Int) (w : World)
    (hi : w.increaseTemp = true) (hs : w.setPointTemp = 40) :
    (changeTimes n state w).2.setPointTemp = 40 ∧
      (changeTimes n state w).2.increaseTemp = true ∧
      (changeTimes n state w).2.decreaseTemp = w.decreaseTemp := by
  induction n generalizing state w with
  | zero => exact ⟨hs, hi, rfl⟩
  | succ n ih =>
    have hstep := changeSetPointTemp_inc_at_limit state w hi (by omega)
    simp only [changeTimes, hstep]
    exact ih BUTTON_WAIT { w with BUTTON_STATE := BUTTON_WAIT } hi hs

/-- C4, as the code behaves. At set-point 40 with the increase flag pending, a
decrease edge is never applied: after the edge, any number of calls of
`changeSetPointTemp` leaves the set-point at 40 with both flags still set. That
state is reached from the initial globals by 21 presses of the increase button,
and a decrease press followed by calls then changes nothing. At set-point 10
with the decrease flag pending, an increase edge is applied by the next call
(set-point 11, increase flag cleared) and the call after it applies the pending
decrease (set-point 10, decrease flag cleared). -/
theorem pending_increase_blocks_decrease :
    (∀ n : Nat,
      (changeTimes n BUTTON_WAIT
          (gpioDecreaseTempCallback (worldWith 40 true false))).2.setPointTemp = 40 ∧
      (changeTimes n BUTTON_WAIT
          (gpioDecreaseTempCallback (worldWith 40 true false))).2.increaseTemp = true ∧
      (changeTimes n BUTTON_WAIT
          (gpioDecreaseTempCallback (worldWith 40 true false))).2.decreaseTemp = true) ∧
    ((runSteps (incPresses 21) World.init).setPointTemp = 40 ∧
      (runSteps (incPresses 21) World.init).increaseTemp = true ∧
      (runSteps (incPresses 21 ++ [.decEdge, .change BUTTON_WAIT, .change BUTTON_WAIT])
          World.init).setPointTemp = 40 ∧
      (runSteps (incPresses 21 ++ [.decEdge, .change BUTTON_WAIT, .change BUTTON_WAIT])
          World.init).decreaseTemp = true) ∧
    ((changeTimes 1 BUTTON_WAIT
          (gpioIncreaseTempCallback (worldWith 10 false true))).2.setPointTemp = 11 ∧
      (changeTimes 1 BUTTON_WAIT
          (gpioIncreaseTempCallback (worldWith 10 false true))).2.increaseTemp = false ∧
      (changeTimes 2 BUTTON_WAIT
          (gpioIncreaseTempCallback (worldWith 10 false true))).2.setPointTemp = 10 ∧
      (changeTimes 2 BUTTON_WAIT
          (gpioIncreaseTempCallback (worldWith 10 false true))).2.decreaseTemp = false) := by
  refine ⟨?_, ?_, ?_⟩
  · intro n
    exact changeTimes_stuck n BUTTON_WAIT
      (gpioDecreaseTempCallback (worldWith 40 true false)) rfl rfl
  · set_option maxRecDepth 100000 in decide
  · decide

/-! ## Scheduler -/

theorem runTask_timing {σ : Type} (t : task σ) (w : σ) :
    (runTask t w).1.timing = (t.period, nextElapsed t.period t.elapsedTime) := by
  unfold runTask nextElapsed task.timing
  by_cases h : t.elapsedTime ≥ t.period <;> simp [h]

theorem runTask_called {σ : Type} (t : task σ) (w : σ) :
    (runTask t w).2.2 = if t.elapsedTime ≥ t.period then some t.state else none := by
  unfold runTask
  by_cases h : t.elapsedTime ≥ t.period <;> simp [h]

theorem forLoop_timing {σ : Type} (k : Nat) (ts : List (task σ)) (w : σ) :
    (forLoop k ts w).1.map task.timing =
      ts.map (fun t => (t.period, nextElapsed t.period t.elapsedTime)) := by
  induction ts generalizing k w with
  | nil => rfl
  | cons t ts ih =>
    simp only [forLoop, List.map_cons, runTask_timing, ih]

theorem forLoop_calls {σ : Type} (k : Nat) (ts : List (task σ)) (w : σ) (i : Nat) :
    (forLoop k ts w).2.2.any (fun c => c.1 == i) =
      (decide (k ≤ i) &&
        match ts[i - k]? with
        | some t => decide (t.elapsedTime ≥ t.period)
        | none => false) := by
  induction ts generalizing k w with
  | nil => simp [forLoop]
  | cons t ts ih =>
    simp only [forLoop, List.any_append, ih, runTask_called]
    by_cases hk : k ≤ i
    · by_cases hki : k = i
      · subst hki
        by_cases hd : t.elapsedTime ≥ t.period <;> simp [hd]
      · have h1 : k + 1 ≤ i := by omega
        have h2 : i - k = (i - (k + 1)) + 1 := by omega
        have h3 : ¬ i = k := fun h => hki h.symm
        rw [h2, List.getElem?_cons_succ]
        by_cases hd : t.elapsedTime ≥ t.period <;> simp [hd, hk, h1, hki]
    · have h1 : ¬ k + 1 ≤ i := by omega
      have h3 : ¬ k = i := by omega
      by_cases hd : t.elapsedTime ≥ t.period <;> simp [hd, hk, h1, h3]

theorem atPass_timing {σ : Type} (wait : Nat → σ → σ) (ts : List (task σ)) (w : σ) (n : Nat) :
    (atPass wait ts w n).1.map task.timing =
      ts.map (fun t => (t.period, elapsedAt t.period t.elapsedTime n)) := by
  induction n with
  | zero => rfl
  | succ n ih =>
    have hstep : ∀ l : List (task σ),
        l.map (fun t => (t.period, nextElapsed t.period t.elapsedTime)) =
          (l.map task.timing).map (fun q => (q.1, nextElapsed q.1 q.2)) := by
      intro l
      rw [List.map_map]
      rfl
    simp only [atPass, forLoop_timing, hstep, ih, List.map_map]
    rfl

theorem fires_eq_dueAt {σ : Type} (wait : Nat → σ → σ) (ts : List (task σ)) (w : σ)
    (n i : Nat) :
    fires wait ts w n i = dueAt (ts[i]?.map task.timing) n := by
  have h := congrArg (fun l => l[i]?) (atPass_timing wait ts w n)
  simp only [List.getElem?_map] at h
  unfold fires passCalls
  simp only [forLoop_calls, Nat.zero_le, decide_True, Bool.true_and, Nat.sub_zero]
  cases hp : (atPass wait ts w n).1[i]? with
  | none =>
    rw [hp] at h
    cases ht : ts[i]? with
    | none => rfl
    | some t => rw [ht] at h; simp at h
  | some q =>
    rw [hp] at h
    cases ht : ts[i]? with
    | none => rw [ht] at h; simp at h
    | some t =>
      rw [ht] at h
      simp only [Option.map_some', Option.some.injEq, task.timing, Prod.mk.injEq] at h
      simp only [Option.map_some', dueAt, task.timing, h.1, h.2]

theorem nextElapsed_small (period e : Nat) (h : e ≤ 1000) :
    nextElapsed period e = (if e ≥ period then 0 else e) + 100 := by
  unfold nextElapsed
  simp only [TIMER_PERIOD, ULONG_MOD]
  split_ifs <;> omega

theorem elapsedAt_200 (n : Nat) :
    elapsedAt 200 200 n = if n % 2 = 0 then 200 else 100 := by
  induction n with
  | zero => rfl
  | succ n ih =>
    rw [elapsedAt, ih, nextElapsed_small _ _ (by split_ifs <;> omega)]
    split_ifs <;> omega

theorem elapsedAt_500 (n : Nat) :
    elapsedAt 500 500 n = if n % 5 = 0 then 500 else 100 * (n % 5) := by
  induction n with
  | zero => rfl
  | succ n ih =>
    rw [elapsedAt, ih, nextElapsed_small _ _ (by split_ifs <;> omega)]
    split_ifs <;> omega

theorem elapsedAt_1000 (n : Nat) :
    elapsedAt 1000 1000 n = if n % 10 = 0 then 1000 else 100 * (n % 10) := by
  induction n with
  | zero => rfl
  | succ n ih =>
    rw [elapsedAt, ih, nextElapsed_small _ _ (by split_ifs <;> omega)]
    split_ifs <;> omega

/-- C5. With the task list of `mainThread` (periods 200, 500, 1000, each
starting with `elapsedTime` equal to its period) and `TIMER_PERIOD = 100`, the
tick function of a task is called in pass `n` exactly when `100 * n` is a
multiple of the period of that task, for every pass `n` (pass 0 is the first),
whatever the sensor, the buttons and the globals do. And in any task list,
whether task `i` is called in pass `n` is a function of the period and the
initial `elapsedTime` of task `i` alone. -/
theorem scheduler_firing_schedule (env : Env) (wait : Nat → World → World) (w : World)
    (n : Nat) :
    ((fires wait (mainTasks env) w n 0 = true ↔ 200 ∣ 100 * n) ∧
      (fires wait (mainTasks env) w n 1 = true ↔ 500 ∣ 100 * n) ∧
      (fires wait (mainTasks env) w n 2 = true ↔ 1000 ∣ 100 * n)) ∧
    (∀ (σ : Type) (wait1 : Nat → σ → σ) (ts : List (task σ)) (w1 : σ) (i : Nat),
      fires wait1 ts w1 n i = dueAt (ts[i]?.map task.timing) n) := by
  refine ⟨⟨?_, ?_, ?_⟩, fun σ wait1 ts w1 i => fires_eq_dueAt wait1 ts w1 n i⟩
  · rw [fires_eq_dueAt]
    simp only [mainTasks, List.getElem?_cons_zero, Option.map_some', task.timing, dueAt,
      elapsedAt_200, decide_eq_true_eq]
    split_ifs <;> omega
  · rw [fires_eq_dueAt]
    simp only [mainTasks, List.getElem?_cons_succ, List.getElem?_cons_zero, Option.map_some',
      task.timing, dueAt, elapsedAt_500, decide_eq_true_eq]
    split_ifs <;> omega
  · rw [fires_eq_dueAt]
    simp only [mainTasks, List.getElem?_cons_succ, List.getElem?_cons_zero, Option.map_some',
      task.timing, dueAt, elapsedAt_1000, decide_eq_true_eq]
    split_ifs <;> omega

/-! ## Heat-control task -/

theorem readTemp_keeps (xfer : I2CResult) (w : World) :
    (readTemp xfer w).2.setPointTemp = w.setPointTemp ∧
      (readTemp xfer w).2.increaseTemp = w.increaseTemp ∧
      (readTemp xfer w).2.decreaseTemp = w.decreaseTemp ∧
      (readTemp xfer w).2.seconds = w.seconds := by
  cases xfer with
  | ok b0 b1 =>
    simp only [readTemp]
    split_ifs <;> exact ⟨rfl, rfl, rfl, rfl⟩
  | fail status => exact ⟨rfl, rfl, rfl, rfl⟩

theorem adjustHeat_off (xfer : I2CResult) (state : Int) (w : World)
    (h : (readTemp xfer w).1 ≥ w.setPointTemp) :
    adjustHeat xfer state w =
      (HEAT_WAIT, { (readTemp xfer w).2 with
        temperature := (readTemp xfer w).1, heatOn := false, led := false }) := by
  have hk := (readTemp_keeps xfer w).1
  simp only [adjustHeat, hk, ge_iff_le]
  rw [if_pos (by simpa using h)]

theorem adjustHeat_on (xfer : I2CResult) (state : Int) (w : World)
    (h : (readTemp xfer w).1 < w.setPointTemp) :
    adjustHeat xfer state w =
      (HEAT_WAIT, { (readTemp xfer w).2 with
        temperature := (readTemp xfer w).1, heatOn := true, led := true }) := by
  have hk := (readTemp_keeps xfer w).1
  simp only [adjustHeat, hk, ge_iff_le]
  rw [if_neg (by simpa using h)]

/-- C6. For every argument, every set-point and every outcome of the sensor
transfer, with t the temperature that `readTemp` returns in this call:
`adjustHeat` sets `heatOn` to false and the LED off when t >= `setPointTemp`,
sets `heatOn` to true and the LED on when t < `setPointTemp`, keeps
`setPointTemp` and both request flags, stores t in `temperature` and returns
`HEAT_WAIT`. -/
theorem adjustHeat_decision (xfer : I2CResult) (state : Int) (w : World) :
    ((readTemp xfer w).1 ≥ w.setPointTemp →
        (adjustHeat xfer state w).2.heatOn = false ∧ (adjustHeat xfer state w).2.led = false) ∧
    ((readTemp xfer w).1 < w.setPointTemp →
        (adjustHeat xfer state w).2.heatOn = true ∧ (adjustHeat xfer state w).2.led = true) ∧
    (adjustHeat xfer state w).2.setPointTemp = w.setPointTemp ∧
    (adjustHeat xfer state w).2.increaseTemp = w.increaseTemp ∧
    (adjustHeat xfer state w).2.decreaseTemp = w.decreaseTemp ∧
    (adjustHeat xfer state w).2.temperature = (readTemp xfer w).1 ∧
    (adjustHeat xfer state w).1 = HEAT_WAIT := by
  obtain ⟨k1, k2, k3, _⟩ := readTemp_keeps xfer w
  refine ⟨?_, ?_, ?_⟩
  · intro h
    rw [adjustHeat_off xfer state w h]
    exact ⟨rfl, rfl⟩
  · intro h
    rw [adjustHeat_on xfer state w h]
    exact ⟨rfl, rfl⟩
  · by_cases h : (readTemp xfer w).1 ≥ w.setPointTemp
    · rw [adjustHeat_off xfer state w h]
      exact ⟨k1, k2, k3, rfl, rfl⟩
    · rw [adjustHeat_on xfer state w (by omega)]
      exact ⟨k1, k2, k3, rfl, rfl⟩

theorem adjustHeat_decision_witness :
    ((readTemp (.ok 0x0C 0x80) World.init).1 ≥ World.init.setPointTemp ∧
      (adjustHeat (.ok 0x0C 0x80) HEAT_WAIT World.init).2.heatOn = false ∧
      (adjustHeat (.ok 0x0C 0x80) HEAT_WAIT World.init).2.led = false) ∧
    ((readTemp (.ok 0x05 0x00) World.init).1 < World.init.setPointTemp ∧
      (adjustHeat (.ok 0x05 0x00) HEAT_WAIT World.init).2.heatOn = true ∧
      (adjustHeat (.ok 0x05 0x00) HEAT_WAIT World.init).2.led = true) :=
  ⟨⟨by decide, (adjustHeat_decision (.ok 0x0C 0x80) HEAT_WAIT World.init).1 (by decide)⟩,
   ⟨by decide, (adjustHeat_decision (.ok 0x05 0x00) HEAT_WAIT World.init).2.1 (by decide)⟩⟩

/-! ## Temperature decoding -/

theorem shift_or_bytes (hi lo : Nat) (h : lo < 256) : (hi <<< 8) ||| lo = hi * 256 + lo := by
  have h2 := @Nat.mul_add_lt_is_or 8 lo (by simpa using h) hi
  rw [Nat.shiftLeft_eq, Nat.mul_comm hi, ← h2]

theorem and_0x80_of_lt : ∀ hi, hi < 128 → hi &&& 0x80 = 0 := by decide

set_option maxRecDepth 100000 in
theorem and_0x80_of_ge : ∀ hi, hi < 256 → 128 ≤ hi → hi &&& 0x80 ≠ 0 := by decide

set_option maxRecDepth 100000 in
theorem or_0xF000_of_scaled : ∀ k : Nat, k < 257 →
    toInt16 (intOr (-(k : Int)) 0xF000) = if k = 0 then -4096 else -(k : Int) := by
  decide

theorem toInt16_of_range (x : Int) (h1 : -32768 ≤ x) (h2 : x < 32768) : toInt16 x = x := by
  unfold toInt16
  omega

theorem readTemp_ok_value (hi lo : Nat) (w : World) (hhi : hi < 256) (hlo : lo < 256) :
    (readTemp (.ok hi lo) w).1 =
      if hi &&& 0x80 ≠ 0 then
        toInt16 (intOr (toInt16 (Int.tdiv (toInt16 ((hi * 256 + lo : Nat) : Int)) 128)) 0xF000)
      else
        toInt16 (Int.tdiv (toInt16 ((hi * 256 + lo : Nat) : Int)) 128) := by
  simp only [readTemp, Nat.mod_eq_of_lt hhi, Nat.mod_eq_of_lt hlo, shift_or_bytes hi lo hlo]
  split_ifs <;> rfl

theorem readTemp_stores (xfer : I2CResult) (w : World) :
    (readTemp xfer w).2.temperature = (readTemp xfer w).1 := by
  cases xfer with
  | ok b0 b1 => simp only [readTemp]
  | fail status => rfl

/-- C7. For received bytes (hi, lo) with the high bit of hi clear, a successful
`readTemp` returns the 16-bit value hi * 256 + lo scaled by 1/128 and truncated,
that is floor((hi * 256 + lo) / 128), and stores it in `temperature`; the raw
value 3200, bytes 0x0C and 0x80, decodes to 25. -/
theorem readTemp_nonnegative (hi lo : Nat) (w : World) (hhi : hi < 128) (hlo : lo < 256) :
    (readTemp (.ok hi lo) w).1 = (((hi * 256 + lo) / 128 : Nat) : Int) ∧
    (readTemp (.ok hi lo) w).1 = Int.tdiv ((hi : Int) * 256 + (lo : Int)) 128 ∧
    (readTemp (.ok hi lo) w).2.temperature = (readTemp (.ok hi lo) w).1 ∧
    ((0x0C * 256 + 0x80 = 3200) ∧ (readTemp (.ok 0x0C 0x80) w).1 = 25) := by
  have key : ∀ (a b : Nat), a < 128 → b < 256 →
      (readTemp (.ok a b) w).1 = (((a * 256 + b) / 128 : Nat) : Int) := by
    intro a b ha hb
    rw [readTemp_ok_value a b w (by omega) hb, and_0x80_of_lt a ha]
    simp only [ne_eq, not_true_eq_false, if_false]
    rw [toInt16_of_range ((a * 256 + b : Nat) : Int) (by omega) (by omega)]
    rw [Int.tdiv_eq_ediv (by omega) (by norm_num)]
    unfold toInt16
    omega
  refine ⟨key hi lo hhi hlo, ?_, readTemp_stores _ w, by norm_num, ?_⟩
  · rw [key hi lo hhi hlo, Int.tdiv_eq_ediv (by omega) (by norm_num)]
    omega
  · rw [key 0x0C 0x80 (by norm_num) (by norm_num)]
    norm_num

theorem readTemp_nonnegative_witness :
    (0x0C < 128 ∧ 0x80 < 256) ∧
    ((readTemp (.ok 0x0C 0x80) World.init).1 = (((0x0C * 256 + 0x80) / 128 : Nat) : Int) ∧
      (readTemp (.ok 0x0C 0x80) World.init).1 =
        Int.tdiv (((0x0C : Nat) : Int) * 256 + ((0x80 : Nat) : Int)) 128 ∧
      (readTemp (.ok 0x0C 0x80) World.init).2.temperature =
        (readTemp (.ok 0x0C 0x80) World.init).1 ∧
      ((0x0C * 256 + 0x80 = 3200) ∧ (readTemp (.ok 0x0C 0x80) World.init).1 = 25)) :=
  ⟨by decide, readTemp_nonnegative 0x0C 0x80 World.init (by decide) (by decide)⟩

/-- C8, refuted as stated: a successful transfer that receives the bytes 0x19
and 0x00 does not make `readTemp` return 25. -/
theorem readTemp_bytes_19_00_ne_25 : ¬ (readTemp (.ok 0x19 0x00) World.init).1 = 25 := by
  decide

/-- C8, amended. On a successful transfer that receives the bytes 0x19 and
0x00, `readTemp` returns 50: the raw value 0x1900 = 6400 scaled by 1/128. -/
theorem readTemp_bytes_19_00_eq_50 (w : World) :
    (readTemp (.ok 0x19 0x00) w).1 = 50 ∧ (0x19 * 256 + 0x00) / 128 = 50 := by
  constructor
  · rw [readTemp_ok_value 0x19 0x00 w (by norm_num) (by norm_num)]
    decide
  · norm_num

theorem readTemp_high_bit (hi lo : Nat) (w : World)
    (h1 : 128 ≤ hi) (h2 : hi < 256) (h3 : lo < 256) :
    (readTemp (.ok hi lo) w).1 =
      if (hi : Int) * 256 + (lo : Int) - 65536 > -128 then -4096
      else Int.tdiv ((hi : Int) * 256 + (lo : Int) - 65536) 128 := by
  have e1 : toInt16 ((hi * 256 + lo : Nat) : Int) = -((65536 - (hi * 256 + lo) : Nat) : Int) := by
    unfold toInt16
    omega
  have e2 : Int.tdiv (-((65536 - (hi * 256 + lo) : Nat) : Int)) 128 =
      -(((65536 - (hi * 256 + lo)) / 128 : Nat) : Int) := by
    rw [Int.neg_tdiv, Int.tdiv_eq_ediv (by omega) (by norm_num)]
    omega
  have e3 : toInt16 (-(((65536 - (hi * 256 + lo)) / 128 : Nat) : Int)) =
      -(((65536 - (hi * 256 + lo)) / 128 : Nat) : Int) :=
    toInt16_of_range _ (by omega) (by omega)
  have e4 : (hi : Int) * 256 + (lo : Int) - 65536 =
      -((65536 - (hi * 256 + lo) : Nat) : Int) := by omega
  rw [readTemp_ok_value hi lo w h2 h3, if_pos (and_0x80_of_ge hi h2 h1), e1, e2, e3,
    or_0xF000_of_scaled _ (by omega), e4, e2]
  split_ifs <;> omega

/-- C9, as the code behaves. For received bytes (hi, lo) with the high bit of
hi set and v = hi * 256 + lo - 65536, a successful `readTemp` returns v scaled
by 1/128 and truncated toward zero when v <= -128, but returns -4096 when
-128 < v < 0, where the truncated scaled value is 0; the result is negative in
both cases. Bytes 0x80, 0x00 give -256; bytes 0xFF, 0xFF give -4096. -/
theorem readTemp_negative (hi lo : Nat) (w : World)
    (h1 : 128 ≤ hi) (h2 : hi < 256) (h3 : lo < 256) :
    ((hi : Int) * 256 + (lo : Int) - 65536 ≤ -128 →
        (readTemp (.ok hi lo) w).1 = Int.tdiv ((hi : Int) * 256 + (lo : Int) - 65536) 128) ∧
    ((hi : Int) * 256 + (lo : Int) - 65536 > -128 →
        (readTemp (.ok hi lo) w).1 = -4096 ∧
        Int.tdiv ((hi : Int) * 256 + (lo : Int) - 65536) 128 = 0) ∧
    (readTemp (.ok hi lo) w).1 < 0 ∧
    (readTemp (.ok 0x80 0x00) w).1 = -256 ∧
    (readTemp (.ok 0xFF 0xFF) w).1 = -4096 := by
  have hv := readTemp_high_bit hi lo w h1 h2 h3
  have e2 : Int.tdiv ((hi : Int) * 256 + (lo : Int) - 65536) 128 =
      -(((65536 - (hi * 256 + lo)) / 128 : Nat) : Int) := by
    have e4 : (hi : Int) * 256 + (lo : Int) - 65536 =
        -((65536 - (hi * 256 + lo) : Nat) : Int) := by omega
    rw [e4, Int.neg_tdiv, Int.tdiv_eq_ediv (by omega) (by norm_num)]
    omega
  refine ⟨?_, ?_, ?_, ?_, ?_⟩
  · intro h
    rw [hv, if_neg (by omega)]
  · intro h
    rw [hv, if_pos h, e2]
    exact ⟨rfl, by omega⟩
  · rw [hv, e2]
    split_ifs <;> omega
  · rw [readTemp_high_bit 0x80 0x00 w (by norm_num) (by norm_num) (by norm_num)]
    decide
  · rw [readTemp_high_bit 0xFF 0xFF w (by norm_num) (by norm_num) (by norm_num)]
    decide

theorem readTemp_negative_witness :
    (128 ≤ 0xFF ∧ 0xFF < 256 ∧ 0xFF < 256 ∧
      ((0xFF : Nat) : Int) * 256 + ((0xFF : Nat) : Int) - 65536 > -128) ∧
    (readTemp (.ok 0xFF 0xFF) World.init).1 = -4096 ∧
    Int.tdiv (((0xFF : Nat) : Int) * 256 + ((0xFF : Nat) : Int) - 65536) 128 = 0 :=
  ⟨by decide,
   (readTemp_negative 0xFF 0xFF World.init (by decide) (by decide) (by decide)).2.1
     (by decide)⟩

/-! ## Sensor identification -/

theorem probeLoop_step (probe : Nat → Nat → Bool) (i : Nat) (w : World) (s : Sensor)
    (hi : i < 3) (hs : sensors[i]? = some s) :
    probeLoop probe i w =
      if (probeTransfer probe
            (DISPLAY (.isThis s.id)
              { w with targetAddress := s.address, txBuffer0 := s.resultReg })).1 then
        .ok (true, i, DISPLAY .found (probeTransfer probe
            (DISPLAY (.isThis s.id)
              { w with targetAddress := s.address, txBuffer0 := s.resultReg })).2)
      else
        probeLoop probe (i + 1) (DISPLAY .no (probeTransfer probe
            (DISPLAY (.isThis s.id)
              { w with targetAddress := s.address, txBuffer0 := s.resultReg })).2) := by
  rw [probeLoop]
  simp only [hi, if_true, hs]

theorem probeLoop_done (probe : Nat → Nat → Bool) (w : World) :
    probeLoop probe 3 w = .ok (false, 3, w) := by
  rw [probeLoop]
  simp

theorem initI2C_first (probe : Nat → Nat → Bool) (w : World) (h0 : probe 0x48 0 = true) :
    ∃ w1, initI2C true probe w = .ok w1 ∧
      w1.transfers = w.transfers ++ [(0x48, 0, 0)] ∧ w1.targetAddress = 0x48 ∧
      w1.uart = w.uart ++
        [.initializing, .passed, .isThis "11X", .found, .detected "11X" 0x48] := by
  simp only [initI2C, Bool.not_true, Bool.false_eq_true, if_false]
  rw [probeLoop_step probe 0 _ ⟨0x48, 0, "11X"⟩ (by norm_num) rfl]
  simp [sensors, probeTransfer, DISPLAY, h0]

theorem initI2C_second (probe : Nat → Nat → Bool) (w : World) (h0 : probe 0x48 0 = false)
    (h1 : probe 0x49 0 = true) :
    ∃ w1, initI2C true probe w = .ok w1 ∧
      w1.transfers = w.transfers ++ [(0x48, 0, 0), (0x49, 0, 0)] ∧ w1.targetAddress = 0x49 ∧
      w1.uart = w.uart ++
        [.initializing, .passed, .isThis "11X", .no, .isThis "116", .found,
          .detected "116" 0x49] := by
  simp only [initI2C, Bool.not_true, Bool.false_eq_true, if_false]
  rw [probeLoop_step probe 0 _ ⟨0x48, 0, "11X"⟩ (by norm_num) rfl]
  simp only [probeTransfer, DISPLAY, h0]
  rw [if_neg (by simp), probeLoop_step probe 1 _ ⟨0x49, 0, "116"⟩ (by norm_num) rfl]
  simp [sensors, probeTransfer, DISPLAY, h1]

theorem initI2C_third (probe : Nat → Nat → Bool) (w : World) (h0 : probe 0x48 0 = false)
    (h1 : probe 0x49 0 = false) (h2 : probe 0x41 1 = true) :
    ∃ w1, initI2C true probe w = .ok w1 ∧
      w1.transfers = w.transfers ++ [(0x48, 0, 0), (0x49, 0, 0), (0x41, 1, 0)] ∧
      w1.targetAddress = 0x41 ∧
      w1.uart = w.uart ++
        [.initializing, .passed, .isThis "11X", .no, .isThis "116", .no, .isThis "006",
          .found, .detected "006" 0x41] := by
  simp only [initI2C, Bool.not_true, Bool.false_eq_true, if_false]
  rw [probeLoop_step probe 0 _ ⟨0x48, 0, "11X"⟩ (by norm_num) rfl]
  simp only [probeTransfer, DISPLAY, h0]
  rw [if_neg (by simp), probeLoop_step probe 1 _ ⟨0x49, 0, "116"⟩ (by norm_num) rfl]
  simp only [probeTransfer, DISPLAY, h1]
  rw [if_neg (by simp), probeLoop_step probe 2 _ ⟨0x41, 1, "006"⟩ (by norm_num) rfl]
  simp [sensors, probeTransfer, DISPLAY, h2]

theorem initI2C_none (probe : Nat → Nat → Bool) (w : World) (h0 : probe 0x48 0 = false)
    (h1 : probe 0x49 0 = false) (h2 : probe 0x41 1 = false) :
    ∃ w1, initI2C true probe w = .ok w1 ∧
      w1.transfers = w.transfers ++ [(0x48, 0, 0), (0x49, 0, 0), (0x41, 1, 0)] ∧
      w1.targetAddress = 0x41 ∧
      w1.uart = w.uart ++
        [.initializing, .passed, .isThis "11X", .no, .isThis "116", .no, .isThis "006",
          .no, .notFound] := by
  simp only [initI2C, Bool.not_true, Bool.false_eq_true, if_false]
  rw [probeLoop_step probe 0 _ ⟨0x48, 0, "11X"⟩ (by norm_num) rfl]
  simp only [probeTransfer, DISPLAY, h0]
  rw [if_neg (by simp), probeLoop_step probe 1 _ ⟨0x49, 0, "116"⟩ (by norm_num) rfl]
  simp only [probeTransfer, DISPLAY, h1]
  rw [if_neg (by simp), probeLoop_step probe 2 _ ⟨0x41, 1, "006"⟩ (by norm_num) rfl]
  simp only [probeTransfer, DISPLAY, h2]
  rw [if_neg (by simp), probeLoop_done]
  simp

/-- C10. With the bus an arbitrary function from (address, register) to
success or failure, `initI2C` probes the candidates 0x48, 0x49, 0x41 in table
order and stops at the least index whose probe succeeds: the probes made are
exactly those of the candidates up to and including that index, the target
address is that candidate, and the last message reports its label and address.
When only the third probe succeeds it makes exactly three probes and selects
label "006" at address 0x41. When no probe succeeds it makes exactly three
probes and reports that no sensor was found. It never reads `sensors` past its
third entry. -/
theorem initI2C_identifies (probe : Nat → Nat → Bool) (w : World) :
    (∀ (j : Nat) (s : Sensor), sensors[j]? = some s → probe s.address s.resultReg = true →
      (∀ (i : Nat) (t : Sensor), i < j → sensors[i]? = some t →
        probe t.address t.resultReg = false) →
      ∃ w1, initI2C true probe w = .ok w1 ∧
        w1.transfers =
          w.transfers ++ (sensors.take (j + 1)).map (fun t => (t.address, t.resultReg, 0)) ∧
        w1.targetAddress = s.address ∧
        w1.uart.getLast? = some (.detected s.id s.address)) ∧
    (probe 0x48 0 = false → probe 0x49 0 = false → probe 0x41 1 = true →
      ∃ w1, initI2C true probe w = .ok w1 ∧
        w1.transfers = w.transfers ++ [(0x48, 0, 0), (0x49, 0, 0), (0x41, 1, 0)] ∧
        w1.targetAddress = 0x41 ∧
        w1.uart = w.uart ++
          [.initializing, .passed, .isThis "11X", .no, .isThis "116", .no, .isThis "006",
            .found, .detected "006" 0x41]) ∧
    ((∀ (i : Nat) (t : Sensor), sensors[i]? = some t → probe t.address t.resultReg = false) →
      ∃ w1, initI2C true probe w = .ok w1 ∧
        w1.transfers = w.transfers ++ sensors.map (fun t => (t.address, t.resultReg, 0)) ∧
        w1.transfers.length = w.transfers.length + 3 ∧
        w1.uart = w.uart ++
          [.initializing, .passed, .isThis "11X", .no, .isThis "116", .no, .isThis "006",
            .no, .notFound]) ∧
    initI2C true probe w ≠ .fault := by
  refine ⟨?_, initI2C_third probe w, ?_, ?_⟩
  · intro j s hs hp hprev
    rcases j with _ | _ | _ | j
    · obtain rfl : (⟨0x48, 0, "11X"⟩ : Sensor) = s := by simpa [sensors] using hs
      obtain ⟨w1, e, ht, ha, hu⟩ := initI2C_first probe w hp
      exact ⟨w1, e, by simpa [sensors] using ht, ha, by simp [hu]⟩
    · obtain rfl : (⟨0x49, 0, "116"⟩ : Sensor) = s := by simpa [sensors] using hs
      have h0 := hprev 0 ⟨0x48, 0, "11X"⟩ (by norm_num) rfl
      obtain ⟨w1, e, ht, ha, hu⟩ := initI2C_second probe w h0 hp
      exact ⟨w1, e, by simpa [sensors] using ht, ha, by simp [hu]⟩
    · obtain rfl : (⟨0x41, 1, "006"⟩ : Sensor) = s := by simpa [sensors] using hs
      have h0 := hprev 0 ⟨0x48, 0, "11X"⟩ (by norm_num) rfl
      have h1 := hprev 1 ⟨0x49, 0, "116"⟩ (by norm_num) rfl
      obtain ⟨w1, e, ht, ha, hu⟩ := initI2C_third probe w h0 h1 hp
      exact ⟨w1, e, by simpa [sensors] using ht, ha, by simp [hu]⟩
    · simp [sensors] at hs
  · intro hall
    have h0 := hall 0 ⟨0x48, 0, "11X"⟩ rfl
    have h1 := hall 1 ⟨0x49, 0, "116"⟩ rfl
    have h2 := hall 2 ⟨0x41, 1, "006"⟩ rfl
    obtain ⟨w1, e, ht, _, hu⟩ := initI2C_none probe w h0 h1 h2
    exact ⟨w1, e, by simpa [sensors] using ht, by simp [ht], hu⟩
  · cases h0 : probe 0x48 0 with
    | true =>
      obtain ⟨w1, e, _⟩ := initI2C_first probe w h0
      rw [e]
      exact fun h => Outcome.noConfusion h
    | false =>
      cases h1 : probe 0x49 0 with
      | true =>
        obtain ⟨w1, e, _⟩ := initI2C_second probe w h0 h1
        rw [e]
        exact fun h => Outcome.noConfusion h
      | false =>
        cases h2 : probe 0x41 1 with
        | true =>
          obtain ⟨w1, e, _⟩ := initI2C_third probe w h0 h1 h2
          rw [e]
          exact fun h => Outcome.noConfusion h
        | false =>
          obtain ⟨w1, e, _⟩ := initI2C_none probe w h0 h1 h2
          rw [e]
          exact fun h => Outcome.noConfusion h

theorem initI2C_identifies_witness :
    ((fun a _ => a == 0x41 : Nat → Nat → Bool) 0x48 0 = false ∧
      (fun a _ => a == 0x41 : Nat → Nat → Bool) 0x49 0 = false ∧
      (fun a _ => a == 0x41 : Nat → Nat → Bool) 0x41 1 = true) ∧
    ∃ w1, initI2C true (fun a _ => a == 0x41) World.init = .ok w1 ∧
      w1.transfers = World.init.transfers ++ [(0x48, 0, 0), (0x49, 0, 0), (0x41, 1, 0)] ∧
      w1.targetAddress = 0x41 ∧
      w1.uart = World.init.uart ++
        [.initializing, .passed, .isThis "11X", .no, .isThis "116", .no, .isThis "006",
          .found, .detected "006" 0x41] :=
  ⟨by decide,
   (initI2C_identifies (fun a _ => a == 0x41) World.init).2.1 (by decide) (by decide)
     (by decide)⟩

/-! ## Start-up with no sensor -/

theorem initI2C_none_eq (probe : Nat → Nat → Bool) (w : World) (h0 : probe 0x48 0 = false)
    (h1 : probe 0x49 0 = false) (h2 : probe 0x41 1 = false) :
    initI2C true probe w =
      .ok { w with
        txBuffer0 := 1, targetAddress := 0x41, writeCount := 1, readCount := 0,
        transfers := w.transfers ++ [(0x48, 0, 0), (0x49, 0, 0), (0x41, 1, 0)],
        uart := w.uart ++
          [.initializing, .passed, .isThis "11X", .no, .isThis "116", .no, .isThis "006",
            .no, .notFound] } := by
  simp only [initI2C, Bool.not_true, Bool.false_eq_true, if_false]
  rw [probeLoop_step probe 0 _ ⟨0x48, 0, "11X"⟩ (by norm_num) rfl]
  simp only [probeTransfer, DISPLAY, h0]
  rw [if_neg (by simp), probeLoop_step probe 1 _ ⟨0x49, 0, "116"⟩ (by norm_num) rfl]
  simp only [probeTransfer, DISPLAY, h1]
  rw [if_neg (by simp), probeLoop_step probe 2 _ ⟨0x41, 1, "006"⟩ (by norm_num) rfl]
  simp only [probeTransfer, DISPLAY, h2]
  rw [if_neg (by simp), probeLoop_done]
  simp

theorem startUp_none_eq (boot : Boot) (w : World)
    (hu : boot.uartOpened = true) (hi : boot.i2cOpened = true)
    (ht : boot.timerOpened = true) (hs : boot.timerStarted = true)
    (h0 : boot.probe 0x48 0 = false) (h1 : boot.probe 0x49 0 = false)
    (h2 : boot.probe 0x41 1 = false) :
    startUp boot w =
      .ok { w with
        txBuffer0 := 1, targetAddress := 0x41, writeCount := 1, readCount := 0, led := false,
        transfers := w.transfers ++ [(0x48, 0, 0), (0x49, 0, 0), (0x41, 1, 0)],
        uart := w.uart ++
          [.initializing, .passed, .isThis "11X", .no, .isThis "116", .no, .isThis "006",
            .no, .notFound] } := by
  simp only [startUp, initUART2, hu, hi, initI2C_none_eq boot.probe w h0 h1 h2, initGPIO,
    initTimer, ht, hs, Bool.not_true, Bool.false_eq_true, if_false]

theorem passCalls_zero (env : Env) (wait : Nat → World → World) (w : World) :
    passCalls wait (mainTasks env) w 0 =
      [(0, BUTTON_WAIT), (1, HEAT_WAIT), (2, UART2_WAIT)] := by
  simp [passCalls, atPass, forLoop, runTask_called, mainTasks]

theorem changeSetPointTemp_bus (state : Int) (w : World) :
    (changeSetPointTemp state w).2.transfers = w.transfers ∧
      (changeSetPointTemp state w).2.targetAddress = w.targetAddress ∧
      (changeSetPointTemp state w).2.txBuffer0 = w.txBuffer0 := by
  unfold changeSetPointTemp
  simp only [INCREASE_TEMP, DECREASE_TEMP, BUTTON_WAIT]
  split_ifs <;> exact ⟨rfl, rfl, rfl⟩

theorem adjustHeat_transfers (xfer : I2CResult) (state : Int) (w : World) :
    (adjustHeat xfer state w).2.transfers =
      w.transfers ++ [(w.targetAddress, w.txBuffer0, 2)] := by
  have hr : (readTemp xfer w).2.transfers =
      w.transfers ++ [(w.targetAddress, w.txBuffer0, 2)] := by
    cases xfer with
    | ok b0 b1 =>
      simp only [readTemp]
      split_ifs <;> rfl
    | fail status => rfl
  rw [← hr]
  by_cases h : (readTemp xfer w).1 ≥ w.setPointTemp
  · rw [adjustHeat_off xfer state w h]
  · rw [adjustHeat_on xfer state w (by omega)]

theorem firstPass_transfers (env : Env) (w : World) :
    (forLoop 0 (mainTasks env) w).2.1.transfers =
      w.transfers ++ [(w.targetAddress, w.txBuffer0, 2)] := by
  obtain ⟨c1, c2, c3⟩ := changeSetPointTemp_bus BUTTON_WAIT w
  simp only [forLoop, runTask, mainTasks, ge_iff_le, le_refl, if_true, UART2Output, DISPLAY,
    adjustHeat_transfers, c1, c2, c3]

/-- C11, refuted as stated: with every driver opening and no candidate
answering its probe, start-up does not halt; `mainThread` reaches its loop, and
after the first pass the bus has seen the three probes and then a two-byte
sensor read made by `adjustHeat`. -/
theorem noSensor_startUp_not_halted :
    (∀ (i : Nat) (t : Sensor), sensors[i]? = some t →
        noSensorBoot.probe t.address t.resultReg = false) ∧
    (¬ ∃ w, startUp noSensorBoot World.init = .halt w) ∧
    (∃ p, mainThread noSensorBoot quietEnv 1 = .ok p ∧
      p.2.transfers = [(0x48, 0, 0), (0x49, 0, 0), (0x41, 1, 0), (0x41, 1, 2)]) := by
  have hs := startUp_none_eq noSensorBoot World.init rfl rfl rfl rfl rfl rfl rfl
  refine ⟨fun _ _ _ => rfl, ?_, ?_⟩
  · rintro ⟨w, hw⟩
    rw [hs] at hw
    exact Outcome.noConfusion hw
  · simp only [mainThread, hs]
    refine ⟨_, rfl, ?_⟩
    simp only [atPass, waitTick, quietEnv, Bool.false_eq_true, if_false]
    rw [firstPass_transfers]
    rfl

/-- C11, amended. If every driver opens and no candidate answers its probe,
`initI2C` displays the not-found diagnostic and returns, start-up does not halt,
and the scheduler loop is entered: `mainThread` reaches every pass, the first
pass calls all three tick functions, and `adjustHeat` makes a two-byte sensor
read at the last probed address 0x41, register 1. -/
theorem startUp_sensor_not_found (boot : Boot) (env : Env)
    (hu : boot.uartOpened = true) (hi : boot.i2cOpened = true)
    (ht : boot.timerOpened = true) (hs : boot.timerStarted = true)
    (hnone : ∀ (i : Nat) (t : Sensor), sensors[i]? = some t →
      boot.probe t.address t.resultReg = false) :
    ∃ w1, startUp boot World.init = .ok w1 ∧
      w1.uart.getLast? = some .notFound ∧
      (∀ n, mainThread boot env n = .ok (atPass (waitTick env) (mainTasks env) w1 n)) ∧
      passCalls (waitTick env) (mainTasks env) w1 0 =
        [(0, BUTTON_WAIT), (1, HEAT_WAIT), (2, UART2_WAIT)] ∧
      (forLoop 0 (mainTasks env) w1).2.1.transfers =
        [(0x48, 0, 0), (0x49, 0, 0), (0x41, 1, 0), (0x41, 1, 2)] := by
  have h0 := hnone 0 ⟨0x48, 0, "11X"⟩ rfl
  have h1 := hnone 1 ⟨0x49, 0, "116"⟩ rfl
  have h2 := hnone 2 ⟨0x41, 1, "006"⟩ rfl
  have hst := startUp_none_eq boot World.init hu hi ht hs h0 h1 h2
  refine ⟨_, hst, ?_, ?_, passCalls_zero env _ _, ?_⟩
  · simp [World.init]
  · intro n
    simp only [mainThread, hst]
  · rw [firstPass_transfers]
    rfl

theorem startUp_sensor_not_found_witness :
    (noSensorBoot.uartOpened = true ∧ noSensorBoot.i2cOpened = true ∧
      noSensorBoot.timerOpened = true ∧ noSensorBoot.timerStarted = true ∧
      ∀ (i : Nat) (t : Sensor), sensors[i]? = some t →
        noSensorBoot.probe t.address t.resultReg = false) ∧
    ∃ w1, startUp noSensorBoot World.init = .ok w1 ∧
      w1.uart.getLast? = some .notFound ∧
      (∀ n, mainThread noSensorBoot quietEnv n =
        .ok (atPass (waitTick quietEnv) (mainTasks quietEnv) w1 n)) ∧
      passCalls (waitTick quietEnv) (mainTasks quietEnv) w1 0 =
        [(0, BUTTON_WAIT), (1, HEAT_WAIT), (2, UART2_WAIT)] ∧
      (forLoop 0 (mainTasks quietEnv) w1).2.1.transfers =
        [(0x48, 0, 0), (0x49, 0, 0), (0x41, 1, 0), (0x41, 1, 2)] :=
  ⟨⟨rfl, rfl, rfl, rfl, fun _ _ _ => rfl⟩,
   startUp_sensor_not_found noSensorBoot quietEnv rfl rfl rfl rfl (fun _ _ _ => rfl)⟩

/-! ## Seconds field of the status line -/

theorem statusSeconds_append (a b : List Msg) :
    statusSeconds (a ++ b) = statusSeconds a ++ statusSeconds b := by
  induction a with
  | nil => rfl
  | cons m ms ih => cases m <;> simp [statusSeconds, ih]

theorem changeSetPointTemp_status (state : Int) (w : World) :
    (changeSetPointTemp state w).2.seconds = w.seconds ∧
      (changeSetPointTemp state w).2.uart = w.uart := by
  unfold changeSetPointTemp
  simp only [INCREASE_TEMP, DECREASE_TEMP, BUTTON_WAIT]
  split_ifs <;> exact ⟨rfl, rfl⟩

theorem readTemp_status (xfer : I2CResult) (w : World) :
    statusSeconds (readTemp xfer w).2.uart = statusSeconds w.uart := by
  cases xfer with
  | ok b0 b1 =>
    simp only [readTemp]
    split_ifs <;> rfl
  | fail status =>
    simp [readTemp, DISPLAY, statusSeconds_append, statusSeconds]

theorem adjustHeat_status (xfer : I2CResult) (state : Int) (w : World) :
    (adjustHeat xfer state w).2.seconds = w.seconds ∧
      statusSeconds (adjustHeat xfer state w).2.uart = statusSeconds w.uart := by
  rw [← readTemp_status xfer w, ← (readTemp_keeps xfer w).2.2.2]
  by_cases h : (readTemp xfer w).1 ≥ w.setPointTemp
  · rw [adjustHeat_off xfer state w h]
    exact ⟨rfl, rfl⟩
  · rw [adjustHeat_on xfer state w (by omega)]
    exact ⟨rfl, rfl⟩

theorem UART2Output_status (state : Int) (w : World) :
    (UART2Output state w).2.seconds = w.seconds ∧
      statusSeconds (UART2Output state w).2.uart = statusSeconds w.uart ++ [w.seconds] := by
  simp [UART2Output, DISPLAY, statusSeconds_append, statusSeconds]

theorem runTask_fst {σ : Type} (t : task σ) (w : σ) :
    (runTask t w).1 =
      { state := if t.elapsedTime ≥ t.period then (t.TickFct t.state w).1 else t.state,
        period := t.period,
        elapsedTime := nextElapsed t.period t.elapsedTime,
        TickFct := t.TickFct } := by
  unfold runTask nextElapsed
  by_cases h : t.elapsedTime ≥ t.period <;> simp [h]

theorem runTask_world {σ : Type} (t : task σ) (w : σ) :
    (runTask t w).2.1 = if t.elapsedTime ≥ t.period then (t.TickFct t.state w).2 else w := by
  unfold runTask
  by_cases h : t.elapsedTime ≥ t.period <;> simp [h]

theorem atPass_mainTasks (env : Env) (wait : Nat → World → World) (w : World) (n : Nat) :
    ∃ s0 s1 s2 : Int, (atPass wait (mainTasks env) w n).1 =
      [ { state := s0, period := 200, elapsedTime := elapsedAt 200 200 n,
          TickFct := changeSetPointTemp },
        { state := s1, period := 500, elapsedTime := elapsedAt 500 500 n,
          TickFct := fun state w => adjustHeat (env.read w.transfers.length) state w },
        { state := s2, period := 1000, elapsedTime := elapsedAt 1000 1000 n,
          TickFct := UART2Output } ] := by
  induction n with
  | zero => exact ⟨BUTTON_WAIT, HEAT_WAIT, UART2_WAIT, rfl⟩
  | succ n ih =>
    obtain ⟨s0, s1, s2, h⟩ := ih
    simp only [atPass, h, forLoop, runTask_fst]
    exact ⟨_, _, _, rfl⟩

theorem pass_status (env : Env) (wait : Nat → World → World) (w : World) (n : Nat) :
    (forLoop 0 (atPass wait (mainTasks env) w n).1 (atPass wait (mainTasks env) w n).2).2.1.seconds
      = (atPass wait (mainTasks env) w n).2.seconds ∧
    statusSeconds
      (forLoop 0 (atPass wait (mainTasks env) w n).1 (atPass wait (mainTasks env) w n).2).2.1.uart
      = statusSeconds (atPass wait (mainTasks env) w n).2.uart ++
          (if n % 10 = 0 then [(atPass wait (mainTasks env) w n).2.seconds] else []) := by
  obtain ⟨s0, s1, s2, h⟩ := atPass_mainTasks env wait w n
  rw [h]
  generalize (atPass wait (mainTasks env) w n).2 = W
  simp only [forLoop, runTask_world, elapsedAt_1000]
  have c3 : (if n % 10 = 0 then 1000 else 100 * (n % 10)) ≥ 1000 ↔ n % 10 = 0 := by
    split_ifs <;> omega
  simp only [c3]
  split_ifs <;>
    simp [changeSetPointTemp_status, adjustHeat_status, UART2Output_status]

theorem toInt32_succ (x : Int) : toInt32 (toInt32 x + 1) = toInt32 (x + 1) := by
  unfold toInt32
  omega

theorem waitTick_status (env : Env) (n : Nat) (w : World) :
    (waitTick env n w).uart = w.uart ∧ (waitTick env n w).seconds = toInt32 (w.seconds + 1) := by
  unfold waitTick gpioIncreaseTempCallback gpioDecreaseTempCallback
  split_ifs <;> exact ⟨rfl, rfl⟩

theorem atPass_seconds (env : Env) (w : World) (h : w.seconds = 0) (n : Nat) :
    (atPass (waitTick env) (mainTasks env) w n).2.seconds = toInt32 (n : Int) := by
  induction n with
  | zero => rw [atPass, h]; rfl
  | succ n ih =>
    simp only [atPass]
    rw [(waitTick_status env n _).2, (pass_status env (waitTick env) w n).1, ih, toInt32_succ]
    push_cast
    rfl

theorem atPass_status_step (env : Env) (w : World) (h : w.seconds = 0) (n : Nat) :
    statusSeconds (atPass (waitTick env) (mainTasks env) w (n + 1)).2.uart =
      statusSeconds (atPass (waitTick env) (mainTasks env) w n).2.uart ++
        (if n % 10 = 0 then [toInt32 (n : Int)] else []) := by
  simp only [atPass]
  rw [(waitTick_status env n _).1, (pass_status env (waitTick env) w n).2,
    atPass_seconds env w h n]

theorem atPass_statusSeconds (env : Env) (w : World) (h : w.seconds = 0) (n : Nat) :
    statusSeconds (atPass (waitTick env) (mainTasks env) w (n + 1)).2.uart =
      statusSeconds w.uart ++
        (List.range (n / 10 + 1)).map (fun j => toInt32 ((10 * j : Nat) : Int)) := by
  induction n with
  | zero =>
    rw [atPass_status_step env w h 0]
    rfl
  | succ n ih =>
    rw [atPass_status_step env w h (n + 1), ih]
    by_cases hm : (n + 1) % 10 = 0
    · have hd : (n + 1) / 10 = n / 10 + 1 := by omega
      have he : 10 * (n / 10 + 1) = n + 1 := by omega
      rw [if_pos hm, hd, List.range_succ (n / 10 + 1), List.map_append, List.append_assoc]
      simp only [List.map_cons, List.map_nil, he]
    · have hd : (n + 1) / 10 = n / 10 := by omega
      rw [if_neg hm, hd, List.append_nil]

/-- C12, as the code behaves. `++seconds` runs once per pass of the loop, that
is once per 100 ms tick, and the status task runs every tenth pass; so from
globals with `seconds = 0` the status lines written up to and including pass
`10 * k` carry the seconds fields 0, 10, 20, ..., `10 * k` (reduced to the range
of `int`): line `k` carries `10 * k`, not `k`. -/
theorem status_line_seconds (env : Env) (w : World) (h : w.seconds = 0) (k : Nat) :
    statusSeconds (atPass (waitTick env) (mainTasks env) w (10 * k + 1)).2.uart =
        statusSeconds w.uart ++
          (List.range (k + 1)).map (fun j => toInt32 ((10 * j : Nat) : Int)) ∧
    (atPass (waitTick env) (mainTasks env) w (10 * k)).2.seconds =
        toInt32 ((10 * k : Nat) : Int) := by
  constructor
  · have hk : 10 * k / 10 = k := by omega
    rw [atPass_statusSeconds env w h (10 * k), hk]
  · exact atPass_seconds env w h (10 * k)

theorem status_line_seconds_witness :
    World.init.seconds = 0 ∧
    (statusSeconds (atPass (waitTick quietEnv) (mainTasks quietEnv) World.init
          (10 * 1 + 1)).2.uart =
        statusSeconds World.init.uart ++
          (List.range (1 + 1)).map (fun j => toInt32 ((10 * j : Nat) : Int)) ∧
      (atPass (waitTick quietEnv) (mainTasks quietEnv) World.init (10 * 1)).2.seconds =
        toInt32 ((10 * 1 : Nat) : Int)) ∧
    statusSeconds World.init.uart ++
        (List.range (1 + 1)).map (fun j => toInt32 ((10 * j : Nat) : Int)) = [0, 10] :=
  ⟨rfl, status_line_seconds quietEnv World.init rfl 1, by decide⟩

/-! ## The scheduler against the rule of the specification -/

theorem runTask_eq_due {σ : Type} (t : task σ) (w : σ) (h : t.elapsedTime ≥ t.period) :
    runTask t w =
      ({ state := (t.TickFct t.state w).1, period := t.period,
         elapsedTime := TIMER_PERIOD % ULONG_MOD, TickFct := t.TickFct },
       (t.TickFct t.state w).2, some t.state) := by
  unfold runTask
  simp [h]

theorem runTask_eq_idle {σ : Type} (t : task σ) (w : σ) (h : ¬ t.elapsedTime ≥ t.period) :
    runTask t w =
      ({ state := t.state, period := t.period,
         elapsedTime := (t.elapsedTime + TIMER_PERIOD) % ULONG_MOD, TickFct := t.TickFct },
       w, none) := by
  unfold runTask
  simp [h]

theorem specRunTask_eq_due {σ : Type} (t : task σ) (w : σ)
    (h : t.elapsedTime + TIMER_PERIOD ≥ t.period) :
    specRunTask t w =
      ({ state := (t.TickFct t.state w).1, period := t.period,
         elapsedTime := 0, TickFct := t.TickFct },
       (t.TickFct t.state w).2, some t.state) := by
  unfold specRunTask
  simp [h]

theorem specRunTask_eq_idle {σ : Type} (t : task σ) (w : σ)
    (h : ¬ t.elapsedTime + TIMER_PERIOD ≥ t.period) :
    specRunTask t w =
      ({ state := t.state, period := t.period,
         elapsedTime := t.elapsedTime + TIMER_PERIOD, TickFct := t.TickFct },
       w, none) := by
  unfold specRunTask
  simp [h]

theorem runTask_sim {σ : Type} (c s : task σ) (w : σ) (h : tickAhead c s) :
    (runTask c w).2 = (specRunTask s w).2 ∧
      tickAhead (runTask c w).1 (specRunTask s w).1 := by
  obtain ⟨hst, hp, hf, hpm, hp100, hpM, hem, hrel⟩ := h
  simp only [TIMER_PERIOD, ULONG_MOD] at hpm hp100 hpM hem hrel
  by_cases hd : c.elapsedTime ≥ c.period
  · have hd1 : s.elapsedTime + TIMER_PERIOD ≥ s.period := by
      simp only [TIMER_PERIOD]
      rcases hrel with ⟨a, b⟩ | ⟨a, b⟩ <;> omega
    rw [runTask_eq_due c w hd, specRunTask_eq_due s w hd1, hst, hf]
    refine ⟨rfl, rfl, hp, rfl, ?_, ?_, ?_, ?_, Or.inr ⟨?_, ?_⟩⟩ <;>
      simp only [TIMER_PERIOD, ULONG_MOD] <;> omega
  · have hd1 : ¬ s.elapsedTime + TIMER_PERIOD ≥ s.period := by
      simp only [TIMER_PERIOD]
      rcases hrel with ⟨a, b⟩ | ⟨a, b⟩ <;> omega
    have hmod : (c.elapsedTime + 100) % 4294967296 = c.elapsedTime + 100 :=
      Nat.mod_eq_of_lt (by omega)
    rw [runTask_eq_idle c w hd, specRunTask_eq_idle s w hd1]
    refine ⟨rfl, hst, hp, hf, ?_, ?_, ?_, ?_, Or.inr ⟨?_, ?_⟩⟩ <;>
      simp only [TIMER_PERIOD, ULONG_MOD, hmod] <;>
      rcases hrel with ⟨a, b⟩ | ⟨a, b⟩ <;> omega

theorem forLoop_sim {σ : Type} (k : Nat) (cs ss : List (task σ)) (w : σ)
    (h : List.Forall₂ tickAhead cs ss) :
    (forLoop k cs w).2 = (specForLoop k ss w).2 ∧
      List.Forall₂ tickAhead (forLoop k cs w).1 (specForLoop k ss w).1 := by
  induction h generalizing k w with
  | nil => exact ⟨rfl, List.Forall₂.nil⟩
  | cons hcs _ ih =>
    obtain ⟨e1, r1⟩ := runTask_sim _ _ w hcs
    have e2 := congrArg Prod.fst e1
    have e3 := congrArg Prod.snd e1
    simp only [forLoop, specForLoop]
    rw [← e2, ← e3]
    obtain ⟨e4, r2⟩ := ih (k + 1) (runTask _ w).2.1
    have e5 := congrArg Prod.fst e4
    have e6 := congrArg Prod.snd e4
    rw [← e5, ← e6]
    exact ⟨rfl, List.Forall₂.cons r1 r2⟩

theorem atPass_sim {σ : Type} (wait : Nat → σ → σ) (ts : List (task σ)) (w : σ)
    (h : List.Forall₂ tickAhead ts ts) (n : Nat) :
    (atPass wait ts w n).2 = (specAtPass wait ts w n).2 ∧
      List.Forall₂ tickAhead (atPass wait ts w n).1 (specAtPass wait ts w n).1 := by
  induction n with
  | zero => exact ⟨rfl, h⟩
  | succ n ih =>
    obtain ⟨e, r⟩ := ih
    obtain ⟨e1, r1⟩ := forLoop_sim 0 _ _ (atPass wait ts w n).2 r
    have e2 := congrArg Prod.fst e1
    simp only [atPass, specAtPass]
    rw [← e, ← e2]
    exact ⟨rfl, r1⟩

theorem mainTasks_tickAhead (env : Env) :
    List.Forall₂ tickAhead (mainTasks env) (mainTasks env) := by
  refine List.Forall₂.cons ?_ (List.Forall₂.cons ?_ (List.Forall₂.cons ?_ List.Forall₂.nil)) <;>
    exact ⟨rfl, rfl, rfl, by norm_num [TIMER_PERIOD], by norm_num [TIMER_PERIOD],
      by norm_num [TIMER_PERIOD, ULONG_MOD], by norm_num [TIMER_PERIOD], Or.inl ⟨rfl, rfl⟩⟩

theorem tickAhead_state_period {σ : Type} (cs ss : List (task σ))
    (h : List.Forall₂ tickAhead cs ss) :
    cs.map (fun t => (t.state, t.period)) = ss.map (fun t => (t.state, t.period)) := by
  induction h with
  | nil => rfl
  | cons hcs _ ih =>
    simp only [List.map_cons, ih, hcs.1, hcs.2.1]

/-- C13. Started from the task list of `mainThread`, the rule of the code (test
`elapsedTime >= period`, run and reset, then add `TIMER_PERIOD`) and the rule of
the specification (add the tick period, then test, run and reset) make the same
calls in every pass: same tasks, same order, same input states; the globals and
the state and period of every task agree before every pass. Under either rule a
task that is not due is not called and keeps its state and its period, and the
globals stay as they are. -/
theorem scheduler_matches_spec_rule (env : Env) (wait : Nat → World → World) (w : World)
    (n : Nat) :
    passCalls wait (mainTasks env) w n = specPassCalls wait (mainTasks env) w n ∧
    (atPass wait (mainTasks env) w n).2 = (specAtPass wait (mainTasks env) w n).2 ∧
    (atPass wait (mainTasks env) w n).1.map (fun t => (t.state, t.period)) =
      (specAtPass wait (mainTasks env) w n).1.map (fun t => (t.state, t.period)) ∧
    (∀ (t : task World) (w1 : World), ¬ t.elapsedTime ≥ t.period →
      (runTask t w1).2.2 = none ∧ (runTask t w1).2.1 = w1 ∧
      (runTask t w1).1.state = t.state ∧ (runTask t w1).1.period = t.period) ∧
    (∀ (t : task World) (w1 : World), ¬ t.elapsedTime + TIMER_PERIOD ≥ t.period →
      (specRunTask t w1).2.2 = none ∧ (specRunTask t w1).2.1 = w1 ∧
      (specRunTask t w1).1.state = t.state ∧ (specRunTask t w1).1.period = t.period) := by
  obtain ⟨e, r⟩ := atPass_sim wait (mainTasks env) w (mainTasks_tickAhead env) n
  refine ⟨?_, e, tickAhead_state_period _ _ r, ?_, ?_⟩
  · obtain ⟨e1, _⟩ := forLoop_sim 0 _ _ (atPass wait (mainTasks env) w n).2 r
    simp only [passCalls, specPassCalls]
    rw [← e]
    exact congrArg Prod.snd e1
  · intro t w1 h
    rw [runTask_eq_idle t w1 h]
    exact ⟨rfl, rfl, rfl, rfl⟩
  · intro t w1 h
    rw [specRunTask_eq_idle t w1 h]
    exact ⟨rfl, rfl, rfl, rfl⟩

theorem scheduler_matches_spec_rule_witness :
    (passCalls (waitTick quietEnv) (mainTasks quietEnv) World.init 10 =
        specPassCalls (waitTick quietEnv) (mainTasks quietEnv) World.init 10) ∧
    ((¬ idleTask.elapsedTime ≥ idleTask.period) ∧
      (runTask idleTask World.init).2.2 = none ∧ (runTask idleTask World.init).2.1 = World.init ∧
      (runTask idleTask World.init).1.state = idleTask.state ∧
      (runTask idleTask World.init).1.period = idleTask.period) ∧
    ((¬ idleTask.elapsedTime + TIMER_PERIOD ≥ idleTask.period) ∧
      (specRunTask idleTask World.init).2.2 = none ∧
      (specRunTask idleTask World.init).2.1 = World.init ∧
      (specRunTask idleTask World.init).1.state = idleTask.state ∧
      (specRunTask idleTask World.init).1.period = idleTask.period) :=
  ⟨(scheduler_matches_spec_rule quietEnv (waitTick quietEnv) World.init 10).1,
   ⟨by decide,
    (scheduler_matches_spec_rule quietEnv (waitTick quietEnv) World.init 10).2.2.2.1
      idleTask World.init (by decide)⟩,
   ⟨by decide,
    (scheduler_matches_spec_rule quietEnv (waitTick quietEnv) World.init 10).2.2.2.2
      idleTask World.init (by decide)⟩⟩

end Thermostat
